import Mathlib

/-!
Shallow embedding of the `performance-helper` SDK (TypeScript) and proofs
about its behaviour.

The embedding covers:
* `PerformanceCollector` (src/core/performance.ts): web-vitals observation
  callbacks (FCP, LCP, FID, CLS, long tasks / TBT), navigation timing, and
  `collect()`;
* `RenderMonitor` (src/core/render.ts): the reflow record sequence with its
  1000-entry cap on the frame-drift source, mutation-triggered records,
  explicit marks, and GPU-acceleration classification;
* `Reporter` (src/core/reporter.ts): stamping, batching, immediate sends and
  the keep-alive `fetch` fallback failure handler.

Conventions used throughout:
* JS numbers are modelled as `ℚ`; `Math.round` is `jsRound` (round half
  towards +∞, as in JavaScript).
* DOM elements are represented by their serialized element path (a `String`);
  element-path serialization (`getElementPath`) is an external collaborator
  of the core, so records carry the path it would produce.
* `parseFloat` results are modelled as pre-parsed `Option ℚ`
  (`none` = `NaN`).
* Effectful calls (console/`sendBeacon`/`fetch`) are modelled by appending
  the transmitted payload to an explicit call log in the reporter state.
-/

/-- JavaScript `Math.round`: round half towards positive infinity. -/
def jsRound (x : ℚ) : ℤ := ⌊x + 1/2⌋

/-- `Math.round` viewed back inside the JS number type. -/
def jsRoundQ (x : ℚ) : ℚ := (jsRound x : ℚ)

/-- JS `a || dflt` on an optional string (`undefined` and `""` are falsy). -/
def strOr (a : Option String) (dflt : String) : String :=
  match a with
  | some s => if s = "" then dflt else s
  | none => dflt

/-- JS truthiness of an optional string. -/
def strTruthy (a : Option String) : Bool :=
  match a with
  | some s => s ≠ ""
  | none => false

/-- Whether `p` occurs at the start of `l` (character lists). -/
def charsStartWith : List Char → List Char → Bool
  | [], _ => true
  | _ :: _, [] => false
  | a :: as, b :: bs => a == b && charsStartWith as bs

/-- Whether `p` occurs contiguously anywhere in `l` (character lists). -/
def charsInfix (p : List Char) : List Char → Bool
  | [] => charsStartWith p []
  | b :: bs => charsStartWith p (b :: bs) || charsInfix p bs

/-- JS `String.prototype.includes`. -/
def strIncludes (s pat : String) : Bool := charsInfix pat.toList s.toList

/-- JS `String.prototype.trim`: strip leading and trailing whitespace
(structural implementation over the character list). -/
def jsTrim (s : String) : String :=
  String.mk (((s.toList.dropWhile Char.isWhitespace).reverse.dropWhile
    Char.isWhitespace).reverse)

/-! ## PerformanceCollector: data model -/

/-- Descriptor of a DOM element attached to a long-task attribution: the
fields the collector reads (`getElementPath(element)`, `tagName`, `id`,
`className`). -/
structure ElementDesc where
  path : String
  tag : String
  id : String
  className : Option String
deriving DecidableEq, Repr

/-- One raw attribution object of a `PerformanceLongTaskTiming` entry. -/
structure RawAttribution where
  entryType : Option String := none
  name : Option String := none
  containerType : Option String := none
  containerName : Option String := none
  containerId : Option String := none
  containerSrc : Option String := none
  scriptURL : Option String := none
  element : Option ElementDesc := none
deriving DecidableEq, Repr

/-- Normalized attribution record (`LongTaskAttribution` in src/types.ts). -/
structure LongTaskAttribution where
  taskType : String
  name : Option String := none
  containerType : Option String := none
  containerName : Option String := none
  containerId : Option String := none
  containerSrc : Option String := none
  scriptURL : Option String := none
  element : Option ElementDesc := none
  elementPath : Option String := none
  elementTag : Option String := none
  elementId : Option String := none
  elementClassName : Option String := none
deriving DecidableEq, Repr

/-- Stored long-task record (`LongTaskInfo` in src/types.ts). -/
structure LongTaskInfo where
  startTime : ℚ
  duration : ℚ
  attribution : List LongTaskAttribution
deriving DecidableEq, Repr

/-- Raw `longtask` performance entry as delivered by the observer. -/
structure LongTaskEntry where
  startTime : ℚ
  duration : ℚ
  name : Option String := none
  attribution : Option (List RawAttribution) := none
  scriptURL : Option String := none
deriving DecidableEq, Repr

/-- Raw `largest-contentful-paint` entry (times relative to time origin;
`elementPath` is the serialized path of the attached element, `none` when the
entry has no element; `some ""` models an element whose path serializes to the
empty string). -/
structure LCPEntry where
  renderTime : Option ℚ := none
  loadTime : Option ℚ := none
  startTime : ℚ := 0
  elementPath : Option String := none
deriving DecidableEq, Repr

/-- Raw `layout-shift` entry. -/
structure LayoutShift where
  startTime : ℚ
  value : ℚ
  hadRecentInput : Bool
deriving DecidableEq, Repr

/-- Raw `paint` entry. -/
structure PaintEntry where
  name : String
  startTime : ℚ
deriving DecidableEq, Repr

/-- Raw `first-input` entry. -/
structure FirstInputEntry where
  processingStart : ℚ
  startTime : ℚ
deriving DecidableEq, Repr

/-- A `PerformanceNavigationTiming` record (the fields the collector reads). -/
structure NavTiming where
  startTime : ℚ := 0
  fetchStart : ℚ := 0
  domainLookupStart : ℚ := 0
  domainLookupEnd : ℚ := 0
  connectStart : ℚ := 0
  connectEnd : ℚ := 0
  requestStart : ℚ := 0
  responseStart : ℚ := 0
  responseEnd : ℚ := 0
  domInteractive : ℚ := 0
  domContentLoadedEventEnd : ℚ := 0
  loadEventEnd : ℚ := 0
deriving DecidableEq, Repr

/-- The metric value store (`Partial<PerformanceMetrics>`): every field starts
unset and is written incrementally by the observers and by `collect()`. -/
structure Metrics where
  fcp : Option ℚ := none
  lcp : Option ℚ := none
  lcpElement : Option String := none
  fid : Option ℚ := none
  cls : Option ℚ := none
  tbt : Option ℚ := none
  ttfb : Option ℚ := none
  dns : Option ℚ := none
  tcp : Option ℚ := none
  request : Option ℚ := none
  parse : Option ℚ := none
  domContentLoaded : Option ℚ := none
  load : Option ℚ := none
  longTasks : Option (List LongTaskInfo) := none
deriving DecidableEq, Repr

/-- Full collector state: the metric store plus the closure variables of
`observeCLS` (`clsValue`, `clsEntries`) and the single-shot observer flags
(`fcpObserverActive` is true when the live FCP observer was installed and not
yet disconnected; `fidDone` when the FID observer has disconnected). -/
structure CollectorState where
  metrics : Metrics
  clsValue : ℚ := 0
  clsEntries : List LayoutShift := []
  fcpObserverActive : Bool := false
  fidDone : Bool := false
deriving DecidableEq, Repr

/-! ## PerformanceCollector: observer callbacks -/

/-- Attribution extraction for one raw attribution object
(`observeTBT`, main branch of the long-task callback). -/
def extractAttribution (attr : RawAttribution) : LongTaskAttribution :=
  let base : LongTaskAttribution :=
    { taskType := strOr attr.entryType (strOr attr.name "unknown")
      name := attr.name }
  let base := if strTruthy attr.containerType then
    { base with containerType := attr.containerType } else base
  let base := if strTruthy attr.containerName then
    { base with containerName := attr.containerName } else base
  let base := if strTruthy attr.containerId then
    { base with containerId := attr.containerId } else base
  let base := if strTruthy attr.containerSrc then
    { base with containerSrc := attr.containerSrc } else base
  let base := if strTruthy attr.scriptURL then
    { base with scriptURL := attr.scriptURL } else base
  match attr.element with
  | none => base
  | some el =>
    let base := { base with
      element := some el
      elementPath := some el.path
      elementTag := some el.tag.toLower }
    let base := if el.id ≠ "" then { base with elementId := some el.id } else base
    match el.className with
    | some c => if c ≠ "" then { base with elementClassName := some (jsTrim c) } else base
    | none => base

/-- Attribution list for a long-task entry: map over the host-supplied array
when present, otherwise synthesize one fallback record. -/
def longTaskAttributionList (e : LongTaskEntry) : List LongTaskAttribution :=
  match e.attribution with
  | some attrs => attrs.map extractAttribution
  | none =>
    let fallback : LongTaskAttribution :=
      { taskType := "unknown", name := some (strOr e.name "long-task") }
    let fallback := if strTruthy e.scriptURL then
      { fallback with scriptURL := e.scriptURL } else fallback
    [fallback]

/-- The normalized `LongTaskInfo` built for a qualifying long-task entry:
rounded start time and duration plus the extracted attribution list. -/
def normalizeLongTask (e : LongTaskEntry) : LongTaskInfo :=
  { startTime := jsRoundQ e.startTime
    duration := jsRoundQ e.duration
    attribution := longTaskAttributionList e }

/-- Body of the long-task observer callback for a single entry: tasks with
duration > 50 are normalized, appended, and their rounded blocking time
(`duration − 50`) is added to the running `tbt`. -/
def processLongTaskEntry (m : Metrics) (e : LongTaskEntry) : Metrics :=
  if 50 < e.duration then
    let m := { m with longTasks := some ((m.longTasks.getD []) ++ [normalizeLongTask e]) }
    let blockingTime := jsRoundQ (e.duration - 50)
    { m with tbt := some ((m.tbt.getD 0) + blockingTime) }
  else m

/-- `updateTBT()`: recompute the total blocking time from the stored list. -/
def updateTBT (m : Metrics) : Metrics :=
  match m.longTasks with
  | none => { m with tbt := some 0 }
  | some [] => { m with tbt := some 0 }
  | some ts =>
    let tbt := ts.foldl (fun acc t => if 50 < t.duration then acc + (t.duration - 50) else acc) 0
    { m with tbt := some (jsRoundQ tbt) }

/-- Initialization performed by `observeTBT()` before subscribing: ensure the
long-task list exists and zero the running total. -/
def observeTBTInit (m : Metrics) : Metrics :=
  let m := match m.longTasks with
           | none => { m with longTasks := some [] }
           | some _ => m
  { m with tbt := some 0 }

/-- LCP value selection (identical logic in `observeLCP` and
`collectFinalLCP`): prefer a positive `renderTime`, then a positive
`loadTime`, else `startTime`. -/
def lcpSelect (e : LCPEntry) : ℚ :=
  match e.renderTime with
  | some r =>
    if 0 < r then r
    else match e.loadTime with
         | some l => if 0 < l then l else e.startTime
         | none => e.startTime
  | none =>
    match e.loadTime with
    | some l => if 0 < l then l else e.startTime
    | none => e.startTime

/-- Store an LCP candidate: when the selected value is positive, overwrite
`lcp` with its rounding and, if the entry carries an element whose serialized
path is non-empty, overwrite `lcpElement`. -/
def applyLCPEntry (m : Metrics) (e : LCPEntry) : Metrics :=
  let v := lcpSelect e
  if 0 < v then
    let m := { m with lcp := some (jsRoundQ v) }
    match e.elementPath with
    | some p => if p ≠ "" then { m with lcpElement := some p } else m
    | none => m
  else m

/-- One step of the CLS session-window fold over `(clsValue, clsEntries)`:
merge into the current session when the running value is truthy, the session
is non-empty and the shift starts < 1000 after the previous member and
< 5000 after the first member; otherwise start a new session. -/
def clsStep (st : ℚ × List LayoutShift) (sh : LayoutShift) : ℚ × List LayoutShift :=
  if sh.hadRecentInput then st
  else
    match st.2.head?, st.2.getLast? with
    | some first, some last =>
      if st.1 ≠ 0 ∧ sh.startTime - last.startTime < 1000 ∧
          sh.startTime - first.startTime < 5000 then
        (st.1 + sh.value, st.2 ++ [sh])
      else
        (sh.value, [sh])
    | _, _ => (sh.value, [sh])

/-- The CLS observer callback: fold the batch through `clsStep`, then report
the current session's running value rounded to three decimals. -/
def observeCLSCallback (st : CollectorState) (entries : List LayoutShift) : CollectorState :=
  let r := entries.foldl clsStep (st.clsValue, st.clsEntries)
  { st with
    clsValue := r.1
    clsEntries := r.2
    metrics := { st.metrics with cls := some (jsRoundQ (r.1 * 1000) / 1000) } }

/-- Body of the FCP buffered read and of the live FCP observer callback for
one entry. -/
def applyPaintEntry (m : Metrics) (p : PaintEntry) : Metrics :=
  if p.name = "first-contentful-paint" then { m with fcp := some (jsRoundQ p.startTime) }
  else m

/-- Body of the FID observer callback for one entry: both `processingStart`
and `startTime` must be truthy (non-zero). -/
def applyFirstInputEntry (m : Metrics) (e : FirstInputEntry) : Metrics :=
  if e.processingStart ≠ 0 ∧ e.startTime ≠ 0 then
    { m with fid := some (jsRoundQ (e.processingStart - e.startTime)) }
  else m

/-- `collectNavigationTiming()` (modern `PerformanceNavigationTiming` path;
`none` models an absent navigation record, in which case the method returns
without writing). The deprecated `performance.timing` fallback is reached
only when the modern API itself throws and is not modelled. -/
def collectNavigationTiming (m : Metrics) (nav : Option NavTiming) : Metrics :=
  match nav with
  | none => m
  | some n =>
    { m with
      dns := some (jsRoundQ (n.domainLookupEnd - n.domainLookupStart))
      tcp := some (jsRoundQ (n.connectEnd - n.connectStart))
      ttfb := some (jsRoundQ (n.responseStart -
        (if n.requestStart ≠ 0 then n.requestStart else n.fetchStart)))
      request := some (jsRoundQ (n.responseEnd - n.responseStart))
      parse := some (jsRoundQ (n.domInteractive - n.responseEnd))
      domContentLoaded := some (jsRoundQ (n.domContentLoadedEventEnd - n.startTime))
      load := some (jsRoundQ (n.loadEventEnd - n.startTime)) }

/-- `collectFinalLCP()`: re-apply the LCP selection to the last raw
`largest-contentful-paint` entry of the performance history. -/
def collectFinalLCPm (m : Metrics) (hist : List LCPEntry) : Metrics :=
  match hist.getLast? with
  | none => m
  | some last => applyLCPEntry m last

/-! ## PerformanceCollector: events, init and collect -/

/-- One suspension-point event delivered to the collector: an observer
callback on one of the channels, or a `collect()` call (which reads the
navigation record and the buffered LCP history). -/
inductive ObsEvent where
  | paint (entries : List PaintEntry)
  | lcpEv (entries : List LCPEntry)
  | fidEv (entries : List FirstInputEntry)
  | clsEv (entries : List LayoutShift)
  | longtaskEv (entries : List LongTaskEntry)
  | collectEv (nav : Option NavTiming) (lcpHistory : List LCPEntry)
deriving DecidableEq, Repr

/-- `init()` / `collectWebVitals()`: read the buffered paint entries for FCP
(installing the live observer only when FCP is still unset), set up the CLS
closure, initialize the long-task store, and run the trailing `updateTBT()`
call of `observeTBT()`. -/
def initCollector (bufferedPaint : List PaintEntry) : CollectorState :=
  let m := bufferedPaint.foldl applyPaintEntry {}
  let fcpObs := m.fcp = none
  let m := updateTBT (observeTBTInit m)
  { metrics := m
    clsValue := 0
    clsEntries := []
    fcpObserverActive := fcpObs
    fidDone := false }

/-- The collector's reaction to one event. Single-shot observers disconnect
after their first qualifying entry, but a `forEach` over one callback batch
still processes the remaining entries of that batch. -/
def step (st : CollectorState) : ObsEvent → CollectorState
  | .paint entries =>
    if st.fcpObserverActive then
      { st with
        metrics := entries.foldl applyPaintEntry st.metrics
        fcpObserverActive := !(entries.any (fun p => p.name = "first-contentful-paint")) }
    else st
  | .lcpEv entries =>
    match entries.getLast? with
    | none => st
    | some last => { st with metrics := applyLCPEntry st.metrics last }
  | .fidEv entries =>
    if st.fidDone then st
    else
      { st with
        metrics := entries.foldl applyFirstInputEntry st.metrics
        fidDone := entries.any (fun e => e.processingStart ≠ 0 ∧ e.startTime ≠ 0) }
  | .clsEv entries => observeCLSCallback st entries
  | .longtaskEv entries =>
    { st with metrics := entries.foldl processLongTaskEntry st.metrics }
  | .collectEv nav hist =>
    { st with metrics := collectFinalLCPm (collectNavigationTiming st.metrics nav) hist }

/-- `collect()`: recompute the navigation timings and the final LCP, then
return the state together with the metric snapshot. -/
def collect (st : CollectorState) (nav : Option NavTiming) (hist : List LCPEntry) :
    CollectorState × Metrics :=
  let st := step st (.collectEv nav hist)
  (st, st.metrics)

/-! ## RenderMonitor: reflow/repaint records and the 1000-entry cap -/

/-- A reflow record (`ReflowInfo` in src/types.ts). Elements are represented
by the serialized path the external `getElementPath` collaborator would
produce for them. -/
structure ReflowInfo where
  timestamp : ℚ
  duration : ℚ
  elementPath : Option String := none
  reason : String
  droppedFrames : Option ℕ := none
  stackTrace : String := ""
deriving DecidableEq, Repr

/-- A repaint record (`RepaintInfo` in src/types.ts). -/
structure RepaintInfo where
  timestamp : ℚ
  duration : ℚ
  elementPath : Option String := none
  reason : String
  stackTrace : String := ""
deriving DecidableEq, Repr

/-- Render-monitor state: the reflow and repaint sequences plus the
`suspiciousElements` map of the reflow detector (recently mutated elements
with their mutation counts, keyed here by serialized path). -/
structure RenderMonitorState where
  reflows : List ReflowInfo := []
  repaints : List RepaintInfo := []
  suspicious : List (String × ℕ) := []
deriving DecidableEq, Repr

/-- `getStackTrace()`: skipped (empty) once either sequence exceeds 1000
entries; otherwise the host's stack text, modelled as a fixed placeholder. -/
def getStackTrace (st : RenderMonitorState) : String :=
  if 1000 < st.reflows.length ∨ 1000 < st.repaints.length then ""
  else "Error"

/-- Stable insertion of one element-count pair into a list sorted by count
descending (the `sort((a, b) => b[1] - a[1])` comparator). -/
def insertByCountDesc (x : String × ℕ) : List (String × ℕ) → List (String × ℕ)
  | [] => [x]
  | y :: ys => if y.2 < x.2 then x :: y :: ys else y :: insertByCountDesc x ys

/-- Sort element-count pairs by count descending (stable). -/
def sortByCountDesc : List (String × ℕ) → List (String × ℕ)
  | [] => []
  | x :: xs => insertByCountDesc x (sortByCountDesc xs)

/-- Body of the `forEach` in `recordPotentialReflow`: append one
`frame_drop` record for a suspicious element. -/
def pushFrameDropRecord (now deltaTime : ℚ) (droppedFrames : ℕ)
    (s : RenderMonitorState) (p : String × ℕ) : RenderMonitorState :=
  { s with reflows := s.reflows ++
    [{ timestamp := now
       duration := deltaTime
       elementPath := some p.1
       reason := "frame_drop"
       droppedFrames := some droppedFrames
       stackTrace := getStackTrace s }] }

/-- `recordPotentialReflow(deltaTime, droppedFrames)`: drop everything when
the sequence already holds 1000 records; otherwise take the 5 most suspicious
recently-mutated elements and append one `frame_drop` record for each.
(`now` stands for the `performance.now()` reads.) -/
def recordPotentialReflow (st : RenderMonitorState) (now deltaTime : ℚ)
    (droppedFrames : ℕ) : RenderMonitorState :=
  if 1000 ≤ st.reflows.length then st
  else
    let suspiciousElements := (sortByCountDesc st.suspicious).take 5
    if suspiciousElements.isEmpty then st
    else
      suspiciousElements.foldl (pushFrameDropRecord now deltaTime droppedFrames) st

/-- `recordReflowFromMutation(element, attrName)`: append one duration-0
record tagged with the changed attribute; there is no cap check here. -/
def recordReflowFromMutation (st : RenderMonitorState) (now : ℚ)
    (elPath attrName : String) : RenderMonitorState :=
  { st with reflows := st.reflows ++
    [{ timestamp := now
       duration := 0
       elementPath := some elPath
       reason := "attribute_change:" ++ attrName
       stackTrace := getStackTrace st }] }

/-- `recordReflow(entry)`: a record for an explicit `reflow` measure entry. -/
def recordReflowMeasured (st : RenderMonitorState) (ts dur : ℚ) : RenderMonitorState :=
  { st with reflows := st.reflows ++
    [{ timestamp := ts, duration := dur, reason := "measured"
       stackTrace := getStackTrace st }] }

/-- Completion of `markReflow(element?, reason?)` after the deferred
measurement: append a record with the given reason or `"manual"`. -/
def markReflowComplete (st : RenderMonitorState) (ts dur : ℚ)
    (elPath : Option String) (reason : Option String) : RenderMonitorState :=
  { st with reflows := st.reflows ++
    [{ timestamp := ts
       duration := dur
       elementPath := elPath
       reason := strOr reason "manual"
       stackTrace := getStackTrace st }] }

/-- `isReflowTriggeringAttribute`: the fixed substring allow-list. -/
def isReflowTriggeringAttribute (attrName : String) : Bool :=
  ["width", "height", "padding", "margin", "border",
   "display", "position", "top", "left", "right", "bottom",
   "font-size", "font-weight", "line-height",
   "overflow", "float", "clear"].any (fun attr => strIncludes attrName attr)

/-! ## RenderMonitor: GPU-acceleration classification -/

/-- The computed-style fields `checkGPUAcceleration` reads. `parseFloat`
results (`opacity`, `transitionDuration`) are pre-parsed, `none` = `NaN`. -/
structure ComputedStyle where
  willChange : String := "auto"
  transform : String := "none"
  transitionProperty : String := "all"
  transitionDuration : Option ℚ := some 0
  opacity : Option ℚ := some 1
  filter : String := "none"
  backdropFilter : String := "none"
deriving DecidableEq, Repr

/-- A GPU-acceleration finding (`GPUAccelerationInfo` in src/types.ts). -/
structure GPUAccelerationInfo where
  elementPath : String
  isAccelerated : Bool
  accelerationMethods : List String
  willChange : Bool
  transform : Bool
  opacity : Bool
  filter : Bool
  backdropFilter : Bool
deriving DecidableEq, Repr

/-- Condition 1 of `checkGPUAcceleration`: `will-change` set and not auto. -/
def willChangeActive (s : ComputedStyle) : Bool :=
  s.willChange ≠ "" && s.willChange ≠ "auto" && jsTrim s.willChange ≠ ""

/-- Condition 2: `transform` neither `none` nor the 2-D identity matrix. -/
def transformActive (s : ComputedStyle) : Bool :=
  s.transform ≠ "" && s.transform ≠ "none" && s.transform ≠ "matrix(1, 0, 0, 1, 0, 0)"

/-- 3-D transform functions present in the `transform` value. -/
def has3DTransform (s : ComputedStyle) : Bool :=
  strIncludes s.transform "translate3d" || strIncludes s.transform "translateZ" ||
  strIncludes s.transform "perspective" || strIncludes s.transform "matrix3d"

/-- A transition that targets the `transform` property with a positive
duration. -/
def hasTransformTransition (s : ComputedStyle) : Bool :=
  s.transitionProperty ≠ "" && s.transitionProperty ≠ "none" &&
  (match s.transitionDuration with | some d => decide (0 < d) | none => false) &&
  (strIncludes s.transitionProperty "transform" || s.transitionProperty == "all")

/-- Condition 3: parsed opacity in `[0, 1)`. -/
def opacityActive (s : ComputedStyle) : Bool :=
  match s.opacity with
  | some o => decide (o < 1) && decide (0 ≤ o)
  | none => false

/-- Condition 4: `filter` set and not `none`. -/
def filterActive (s : ComputedStyle) : Bool :=
  s.filter ≠ "" && s.filter ≠ "none" && jsTrim s.filter ≠ ""

/-- Condition 5: `backdrop-filter` set and not `none`. -/
def backdropFilterActive (s : ComputedStyle) : Bool :=
  s.backdropFilter ≠ "" && s.backdropFilter ≠ "none" && jsTrim s.backdropFilter ≠ ""

/-- `checkGPUAcceleration(element, computedStyle)`: evaluate the five checks
in order, recording every matching method. -/
def checkGPUAcceleration (elementPath : String) (s : ComputedStyle) : GPUAccelerationInfo :=
  let info : GPUAccelerationInfo :=
    { elementPath := elementPath
      isAccelerated := false
      accelerationMethods := []
      willChange := false
      transform := false
      opacity := false
      filter := false
      backdropFilter := false }
  let info := if willChangeActive s then
    { info with
      willChange := true
      isAccelerated := true
      accelerationMethods := info.accelerationMethods ++ ["will-change"] }
    else info
  let info :=
    if transformActive s then
      let info :=
        { info with
          transform := true
          isAccelerated := true
          accelerationMethods := info.accelerationMethods ++ ["transform"] }
      if has3DTransform s then
        if info.accelerationMethods.contains "transform-3d" then info
        else { info with accelerationMethods := info.accelerationMethods ++ ["transform-3d"] }
      else info
    else if hasTransformTransition s then
      { info with
        transform := true
        isAccelerated := true
        accelerationMethods := info.accelerationMethods ++ ["transform-transition"] }
    else info
  let info := if opacityActive s then
    { info with
      opacity := true
      isAccelerated := true
      accelerationMethods := info.accelerationMethods ++ ["opacity"] }
    else info
  let info := if filterActive s then
    { info with
      filter := true
      isAccelerated := true
      accelerationMethods := info.accelerationMethods ++ ["filter"] }
    else info
  let info := if backdropFilterActive s then
    { info with
      backdropFilter := true
      isAccelerated := true
      accelerationMethods := info.accelerationMethods ++ ["backdrop-filter"] }
    else info
  info

/-! ## Reporter -/

/-- Constructor options (`PerformanceHelperOptions` fields the reporter
reads). -/
structure ReporterOptions where
  reportUrl : Option String := none
  appId : Option String := none
  userId : Option String := none
  immediate : Option Bool := none
  batchInterval : Option ℚ := none
deriving DecidableEq, Repr

/-- A stamped report envelope (`ReportData` in src/types.ts); the payload is
kept opaque. -/
structure ReportData where
  type : String
  data : String
  timestamp : ℤ
  url : String
  userAgent : String
  appId : Option String := none
  userId : Option String := none
deriving DecidableEq, Repr

/-- The envelope a caller hands to `report()` before stamping. -/
structure ReportInput where
  type : String
  data : String
deriving DecidableEq, Repr

/-- Which transport primitive a `send()` call used. -/
inductive SendChannel where
  | console
  | beacon
  | fetchCall
deriving DecidableEq, Repr

/-- One observable `send()` transmission: the channel used and the payload
array handed to it. -/
structure SendCall where
  channel : SendChannel
  payload : List ReportData
deriving DecidableEq, Repr

/-- Reporter state: configuration, the delivery queue, whether the batch
timer is running, and the chronological log of transmissions performed. -/
structure ReporterState where
  reportUrl : Option String := none
  appId : Option String := none
  userId : Option String := none
  immediate : Bool := false
  batchInterval : ℚ := 5000
  queue : List ReportData := []
  timerActive : Bool := false
  calls : List SendCall := []
deriving DecidableEq, Repr

/-- Host conditions a `send()` runs under: whether `navigator.sendBeacon`
exists and whether the keep-alive `fetch` fallback would fail. -/
structure TransportEnv where
  beaconAvailable : Bool
  fetchFails : Bool
deriving DecidableEq, Repr

/-- The reporter constructor: `immediate` and `batchInterval` default via JS
`||` (so an explicit 0 interval also falls back to 5000), and the batch timer
starts only in batched mode. -/
def mkReporter (opts : ReporterOptions) : ReporterState :=
  { reportUrl := opts.reportUrl
    appId := opts.appId
    userId := opts.userId
    immediate := (opts.immediate.getD false)
    batchInterval := match opts.batchInterval with
                     | some v => if v = 0 then 5000 else v
                     | none => 5000
    queue := []
    timerActive := !(opts.immediate.getD false)
    calls := [] }

/-- `send(data)`: no destination means surface on the console; otherwise
prefer `sendBeacon`, else `fetch` with keep-alive whose `.catch` handler
requeues the payload in batched mode. The `Except` result records whether a
failure escapes to the caller: every branch returns `.ok`. -/
def send (st : ReporterState) (data : List ReportData) (env : TransportEnv) :
    Except String ReporterState :=
  match st.reportUrl with
  | none => .ok { st with calls := st.calls ++ [{ channel := .console, payload := data }] }
  | some _ =>
    if env.beaconAvailable then
      .ok { st with calls := st.calls ++ [{ channel := .beacon, payload := data }] }
    else
      if env.fetchFails then
        .ok { st with
          calls := st.calls ++ [{ channel := .fetchCall, payload := data }]
          queue := if st.immediate then st.queue else st.queue ++ data }
      else
        .ok { st with calls := st.calls ++ [{ channel := .fetchCall, payload := data }] }

/-- The stamped envelope `report()` builds from its argument and the ambient
clock/location/user-agent. -/
def stampEnvelope (st : ReporterState) (inp : ReportInput) (now : ℤ)
    (url userAgent : String) : ReportData :=
  { type := inp.type
    data := inp.data
    timestamp := now
    url := url
    userAgent := userAgent
    appId := st.appId
    userId := st.userId }

/-- `report(data)`: stamp, then send immediately or enqueue. -/
def report (st : ReporterState) (inp : ReportInput) (now : ℤ)
    (url userAgent : String) (env : TransportEnv) : Except String ReporterState :=
  let reportData := stampEnvelope st inp now url userAgent
  if st.immediate then send st [reportData] env
  else .ok { st with queue := st.queue ++ [reportData] }

/-- `batchReport()`: flush by swapping the queue out and sending it as one
payload; a no-op on an empty queue. -/
def batchReport (st : ReporterState) (env : TransportEnv) : Except String ReporterState :=
  if st.queue = [] then .ok st
  else
    let dataToSend := st.queue
    send { st with queue := [] } dataToSend env

/-- `destroy()`: stop the timer and perform one final flush. -/
def destroyReporter (st : ReporterState) (env : TransportEnv) : Except String ReporterState :=
  batchReport { st with timerActive := false } env

/-- Fold a list of `report()` calls (each with its own stamping context),
propagating the (never-occurring) failure. -/
def reportAll (st : ReporterState) (items : List (ReportInput × ℤ × String × String))
    (env : TransportEnv) : Except String ReporterState :=
  match items with
  | [] => .ok st
  | (inp, now, url, ua) :: rest =>
    match report st inp now url ua env with
    | .ok st => reportAll st rest env
    | .error e => .error e

/-- The transport primitive `send()` will use in a given host environment:
console surfacing without a destination, else `sendBeacon` when available,
else the keep-alive `fetch` fallback. -/
def sendChannelOf (st : ReporterState) (env : TransportEnv) : SendChannel :=
  match st.reportUrl with
  | none => .console
  | some _ => if env.beaconAvailable then .beacon else .fetchCall

/-- Whether a stored JS number is an integer. -/
def qIsInt (q : ℚ) : Bool := q.den == 1

/-- An optional stored value that, when set, is an integer. -/
def optRounded (o : Option ℚ) : Bool :=
  match o with
  | none => true
  | some v => qIsInt v

/-- Every numeric value of the metric store is rounded: the eleven named
metrics and each long task's startTime and duration are integers, and `cls`
has at most three decimal places. -/
def metricsRounded (m : Metrics) : Bool :=
  optRounded m.fcp && optRounded m.lcp && optRounded m.fid &&
  optRounded m.tbt && optRounded m.ttfb && optRounded m.dns && optRounded m.tcp &&
  optRounded m.request && optRounded m.parse && optRounded m.domContentLoaded &&
  optRounded m.load &&
  (m.longTasks.getD []).all (fun t => qIsInt t.startTime && qIsInt t.duration) &&
  (match m.cls with
   | none => true
   | some c => qIsInt (c * 1000))

/-! ## Specification-side definitions used for refinement comparisons -/

/-- Modelled from the spec: the CLS merge rule exactly as the claim states
it, with no condition on the current running value — an incoming no-input
shift merges precisely when it starts < 1000 after the previous member and
< 5000 after the first member; otherwise it replaces the session. Used only
to compare against the implementation's `clsStep`. -/
def clsStepClaim (st : ℚ × List LayoutShift) (sh : LayoutShift) : ℚ × List LayoutShift :=
  if sh.hadRecentInput then st
  else
    match st.2.head?, st.2.getLast? with
    | some first, some last =>
      if sh.startTime - last.startTime < 1000 ∧ sh.startTime - first.startTime < 5000 then
        (st.1 + sh.value, st.2 ++ [sh])
      else
        (sh.value, [sh])
    | _, _ => (sh.value, [sh])

/-- JS truthiness-with-positivity of an optional number: the test
`x !== undefined && x !== null && x > 0` used by the LCP selection. -/
def optPos (x : Option ℚ) : Bool :=
  match x with
  | some v => decide (0 < v)
  | none => false

/-! ## Helper lemmas about JS rounding -/

theorem jsRound_intCast (n : ℤ) : jsRound (n : ℚ) = n := by
  have h0 : ⌊(1 : ℚ)/2⌋ = 0 := by
    rw [Int.floor_eq_zero_iff]
    constructor <;> norm_num
  unfold jsRound
  rw [Int.floor_int_add, h0, add_zero]

theorem jsRoundQ_den (x : ℚ) : (jsRoundQ x).den = 1 := by
  simp [jsRoundQ]

theorem jsRound_sub_int (x : ℚ) (n : ℤ) : jsRound (x - n) = jsRound x - n := by
  unfold jsRound
  rw [show x - (n : ℚ) + 1/2 = x + 1/2 - (n : ℚ) by ring, Int.floor_sub_int]

theorem jsRound_ge_of_gt {x : ℚ} (h : 50 < x) : 50 ≤ jsRound x := by
  have h1 : (50 : ℚ) + 1/2 ≤ x + 1/2 := by linarith
  have h2 : (50 : ℤ) ≤ ⌊(50 : ℚ) + 1/2⌋ := by norm_num
  calc (50 : ℤ) ≤ ⌊(50 : ℚ) + 1/2⌋ := h2
    _ ≤ ⌊x + 1/2⌋ := Int.floor_le_floor h1

theorem jsRoundQ_eq_self {q : ℚ} (h : q.den = 1) : jsRoundQ q = q := by
  have hq : (q.num : ℚ) = q := (Rat.den_eq_one_iff q).mp h
  calc jsRoundQ q = jsRoundQ (q.num : ℚ) := by rw [hq]
    _ = ((jsRound (q.num : ℚ) : ℤ) : ℚ) := rfl
    _ = (q.num : ℚ) := by rw [jsRound_intCast]
    _ = q := hq

theorem qIsInt_add {a b : ℚ} (ha : a.den = 1) (hb : b.den = 1) : (a + b).den = 1 := by
  have ha' : (a.num : ℚ) = a := (Rat.den_eq_one_iff a).mp ha
  have hb' : (b.num : ℚ) = b := (Rat.den_eq_one_iff b).mp hb
  have : ((a.num + b.num : ℤ) : ℚ) = a + b := by push_cast [ha', hb']; ring
  rw [← this]
  exact Rat.den_intCast _

/-! ## Long-task fold lemmas -/

theorem processLongTaskEntry_not_long (m : Metrics) (e : LongTaskEntry)
    (h : ¬ 50 < e.duration) : processLongTaskEntry m e = m := by
  simp [processLongTaskEntry, h]

theorem processLongTaskEntry_long (m : Metrics) (e : LongTaskEntry)
    (h : 50 < e.duration) :
    processLongTaskEntry m e =
      { m with
        longTasks := some ((m.longTasks.getD []) ++ [normalizeLongTask e])
        tbt := some ((m.tbt.getD 0) + jsRoundQ (e.duration - 50)) } := by
  simp [processLongTaskEntry, h]

theorem longtask_fold_longTasks (es : List LongTaskEntry) (m : Metrics)
    (ts : List LongTaskInfo) (h : m.longTasks = some ts) :
    (es.foldl processLongTaskEntry m).longTasks =
      some (ts ++ (es.filter (fun e => 50 < e.duration)).map normalizeLongTask) := by
  induction es generalizing m ts with
  | nil => simpa using h
  | cons e rest ih =>
    by_cases he : 50 < e.duration
    · rw [List.foldl_cons, processLongTaskEntry_long m e he]
      rw [ih _ (ts ++ [normalizeLongTask e]) (by simp [h])]
      simp [he]
    · rw [List.foldl_cons, processLongTaskEntry_not_long m e he]
      rw [ih _ ts h]
      simp [he]

theorem longtask_fold_tbt (es : List LongTaskEntry) (m : Metrics) (t : ℚ)
    (h : m.tbt = some t) :
    (es.foldl processLongTaskEntry m).tbt =
      some (t + ((es.filter (fun e => 50 < e.duration)).map
        (fun e => jsRoundQ (e.duration - 50))).sum) := by
  induction es generalizing m t with
  | nil => simpa using h
  | cons e rest ih =>
    by_cases he : 50 < e.duration
    · rw [List.foldl_cons, processLongTaskEntry_long m e he]
      rw [ih _ (t + jsRoundQ (e.duration - 50)) (by simp [h])]
      simp [he, add_assoc]
    · rw [List.foldl_cons, processLongTaskEntry_not_long m e he]
      rw [ih _ t h]
      simp [he]

theorem jsRound_eq_of_bounds (x : ℚ) (n : ℤ) (h1 : (n : ℚ) ≤ x + 1/2)
    (h2 : x + 1/2 < n + 1) : jsRound x = n := by
  unfold jsRound
  rw [Int.floor_eq_iff]
  exact ⟨h1, h2⟩

theorem jsRoundQ_eq_of_bounds (x : ℚ) (n : ℤ) (h1 : (n : ℚ) ≤ x + 1/2)
    (h2 : x + 1/2 < n + 1) : jsRoundQ x = (n : ℚ) := by
  unfold jsRoundQ
  rw [jsRound_eq_of_bounds x n h1 h2]

theorem blocking_round {d : ℚ} (h : 50 < d) :
    (if 50 < jsRoundQ d then jsRoundQ d - 50 else 0) = jsRoundQ (d - 50) := by
  have hge : (50 : ℤ) ≤ jsRound d := jsRound_ge_of_gt h
  have hsub : jsRound (d - 50) = jsRound d - 50 := by
    have h1 := jsRound_sub_int d 50
    have h2 : ((50 : ℤ) : ℚ) = (50 : ℚ) := by norm_num
    rw [h2] at h1
    exact h1
  by_cases hc : (50 : ℤ) < jsRound d
  · have hlt : (50 : ℚ) < jsRoundQ d := by
      unfold jsRoundQ
      exact_mod_cast hc
    rw [if_pos hlt]
    unfold jsRoundQ
    rw [hsub]
    push_cast
    ring
  · have heq : jsRound d = 50 := le_antisymm (not_lt.mp hc) hge
    have hnlt : ¬ (50 : ℚ) < jsRoundQ d := by
      unfold jsRoundQ
      rw [heq]
      norm_num
    rw [if_neg hnlt]
    unfold jsRoundQ
    rw [hsub, heq]
    norm_num

theorem resumFold (l : List LongTaskInfo) (init : ℚ) :
    l.foldl (fun acc t => if 50 < t.duration then acc + (t.duration - 50) else acc) init
      = init + (l.map (fun t => if 50 < t.duration then t.duration - 50 else 0)).sum := by
  induction l generalizing init with
  | nil => simp
  | cons t rest ih =>
    simp only [List.foldl_cons, List.map_cons, List.sum_cons]
    by_cases hc : 50 < t.duration
    · rw [if_pos hc, if_pos hc, ih]; ring
    · rw [if_neg hc, if_neg hc, ih]; ring

theorem sum_jsRoundQ_den {α : Type} (l : List α) (f : α → ℚ) :
    ((l.map (fun e => jsRoundQ (f e))).sum).den = 1 := by
  induction l with
  | nil => simp
  | cons a rest ih => simpa using qIsInt_add (jsRoundQ_den (f a)) ih

theorem updateTBT_tbt_cons (m : Metrics) (t0 : LongTaskInfo) (ts : List LongTaskInfo)
    (h : m.longTasks = some (t0 :: ts)) :
    (updateTBT m).tbt = some (jsRoundQ (((t0 :: ts).map
      (fun t => if 50 < t.duration then t.duration - 50 else 0)).sum)) := by
  unfold updateTBT
  rw [h]
  simp [resumFold]

theorem map_resum_eq (fl : List LongTaskEntry) (hmem : ∀ e ∈ fl, 50 < e.duration) :
    (fl.map normalizeLongTask).map (fun t => if 50 < t.duration then t.duration - 50 else 0)
      = fl.map (fun x => jsRoundQ (x.duration - 50)) := by
  rw [List.map_map]
  refine List.map_congr_left ?_
  intro x hx
  simpa [normalizeLongTask] using blocking_round (hmem x hx)

theorem updateTBT_resum (fl : List LongTaskEntry) (m : Metrics)
    (hmem : ∀ e ∈ fl, 50 < e.duration)
    (hLT : m.longTasks = some (fl.map normalizeLongTask))
    (hT : m.tbt = some ((fl.map (fun e => jsRoundQ (e.duration - 50))).sum)) :
    (updateTBT m).tbt = m.tbt := by
  cases fl with
  | nil =>
    unfold updateTBT
    rw [hLT]
    simp [hT]
  | cons e rest =>
    rw [updateTBT_tbt_cons m (normalizeLongTask e) (rest.map normalizeLongTask)
      (by simpa using hLT), hT]
    congr 1
    rw [← List.map_cons normalizeLongTask e rest, map_resum_eq (e :: rest) hmem,
      jsRoundQ_eq_self (sum_jsRoundQ_den (e :: rest) (fun x => x.duration - 50))]

theorem applyLCPEntry_tbt (m : Metrics) (e : LCPEntry) : (applyLCPEntry m e).tbt = m.tbt := by
  simp only [applyLCPEntry]
  repeat' split
  all_goals rfl

theorem collectNavigationTiming_tbt (m : Metrics) (nav : Option NavTiming) :
    (collectNavigationTiming m nav).tbt = m.tbt := by
  cases nav <;> rfl

theorem collectFinalLCPm_tbt (m : Metrics) (hist : List LCPEntry) :
    (collectFinalLCPm m hist).tbt = m.tbt := by
  unfold collectFinalLCPm
  cases hist.getLast? with
  | none => rfl
  | some last => exact applyLCPEntry_tbt m last

theorem paint_fold_tbt (bp : List PaintEntry) (m : Metrics) :
    (bp.foldl applyPaintEntry m).tbt = m.tbt := by
  induction bp generalizing m with
  | nil => rfl
  | cons p rest ih =>
    rw [List.foldl_cons]
    rw [ih]
    unfold applyPaintEntry
    split <;> rfl

theorem paint_fold_longTasks (bp : List PaintEntry) (m : Metrics) :
    (bp.foldl applyPaintEntry m).longTasks = m.longTasks := by
  induction bp generalizing m with
  | nil => rfl
  | cons p rest ih =>
    rw [List.foldl_cons]
    rw [ih]
    unfold applyPaintEntry
    split <;> rfl

theorem initCollector_longTasks (bp : List PaintEntry) :
    (initCollector bp).metrics.longTasks = some [] := by
  unfold initCollector observeTBTInit updateTBT
  simp only
  rw [paint_fold_longTasks bp {}]

theorem initCollector_tbt (bp : List PaintEntry) :
    (initCollector bp).metrics.tbt = some 0 := by
  unfold initCollector observeTBTInit updateTBT
  simp only
  rw [paint_fold_longTasks bp {}]

/-! ## C1: TBT -/

/-- C1 (amended): for any sequence of long-task observations, the stored
`tbt` equals the sum of the rounded blocking times `round(dᵢ − 50)` over the
tasks with raw duration dᵢ > 50; resumming the stored tasks' contributions
(`updateTBT`, the computation `observeTBT` runs after subscribing) yields the
same value, so no firing is double-counted; and `collect()` leaves `tbt`
unchanged, so the reported value is idempotent across repeated `collect()`
calls. -/
theorem C1_tbt_rounded_resum (bp : List PaintEntry) (es : List LongTaskEntry)
    (nav : Option NavTiming) (hist : List LCPEntry) (stAny : CollectorState) :
    ((step (initCollector bp) (.longtaskEv es)).metrics.tbt =
        some (((es.filter (fun e => 50 < e.duration)).map
          (fun e => jsRoundQ (e.duration - 50))).sum))
    ∧ (updateTBT (step (initCollector bp) (.longtaskEv es)).metrics).tbt =
        (step (initCollector bp) (.longtaskEv es)).metrics.tbt
    ∧ (collect stAny nav hist).2.tbt = stAny.metrics.tbt := by
  have hm : (step (initCollector bp) (.longtaskEv es)).metrics =
      es.foldl processLongTaskEntry (initCollector bp).metrics := rfl
  have h1 : (step (initCollector bp) (.longtaskEv es)).metrics.tbt =
      some (((es.filter (fun e => 50 < e.duration)).map
        (fun e => jsRoundQ (e.duration - 50))).sum) := by
    rw [hm, longtask_fold_tbt es _ 0 (initCollector_tbt bp), zero_add]
  refine ⟨h1, ?_, ?_⟩
  · refine updateTBT_resum (es.filter (fun e => 50 < e.duration)) _ ?_ ?_ h1
    · intro e he
      exact of_decide_eq_true (List.mem_filter.mp he).2
    · rw [hm, longtask_fold_longTasks es _ [] (initCollector_longTasks bp)]
      simp
  · show (collectFinalLCPm (collectNavigationTiming stAny.metrics nav) hist).tbt = _
    rw [collectFinalLCPm_tbt, collectNavigationTiming_tbt]

/-- C1 counterexample: a single long-task observation with raw duration
50.4 yields `tbt = 0` (the rounded blocking time of 0.4), not the exact sum
0.4 the claim states. -/
theorem C1_counterexample :
    (step (initCollector []) (.longtaskEv [{ startTime := 0, duration := 252/5 }])).metrics.tbt
        = some 0
    ∧ (252 : ℚ)/5 - 50 ≠ 0 := by
  have he : (50 : ℚ) < 252/5 := by norm_num
  constructor
  · have hstep : (step (initCollector [])
        (.longtaskEv [{ startTime := 0, duration := 252/5 }])).metrics
        = processLongTaskEntry (initCollector []).metrics
            { startTime := 0, duration := 252/5 } := rfl
    rw [hstep, processLongTaskEntry_long _ _ he]
    have hb : jsRoundQ ((252 : ℚ)/5 - 50) = ((0 : ℤ) : ℚ) := by
      apply jsRoundQ_eq_of_bounds <;> norm_num
    simp [initCollector_tbt, hb]
  · norm_num

/-! ## C9: long-task storage -/

/-- C9 (amended): a long-task observation is appended to the stored sequence
exactly when its raw duration exceeds 50 (the stored list is precisely the
normalization of the qualifying observations, in order), and every stored
record's duration is ≥ 50 — the nearest-integer rounding of a raw duration
> 50, which can equal exactly 50. -/
theorem C9_longtask_storage (bp : List PaintEntry) (es : List LongTaskEntry) :
    ((step (initCollector bp) (.longtaskEv es)).metrics.longTasks =
        some ((es.filter (fun e => 50 < e.duration)).map normalizeLongTask))
    ∧ (((step (initCollector bp) (.longtaskEv es)).metrics.longTasks.getD []).all
        (fun t => 50 ≤ t.duration) = true) := by
  have hm : (step (initCollector bp) (.longtaskEv es)).metrics =
      es.foldl processLongTaskEntry (initCollector bp).metrics := rfl
  have h1 : (step (initCollector bp) (.longtaskEv es)).metrics.longTasks =
      some ((es.filter (fun e => 50 < e.duration)).map normalizeLongTask) := by
    rw [hm, longtask_fold_longTasks es _ [] (initCollector_longTasks bp)]
    simp
  refine ⟨h1, ?_⟩
  rw [h1]
  simp only [Option.getD_some, List.all_eq_true]
  intro t ht
  rcases List.mem_map.mp ht with ⟨e, he, rfl⟩
  have hd : 50 < e.duration := of_decide_eq_true (List.mem_filter.mp he).2
  have : (50 : ℤ) ≤ jsRound e.duration := jsRound_ge_of_gt hd
  simp only [normalizeLongTask, jsRoundQ]
  rw [decide_eq_true_eq]
  exact_mod_cast this

/-- C9 counterexample: an observation with raw duration 50.4 is stored with
duration exactly 50, so the stored duration is not strictly greater than
50. -/
theorem C9_counterexample :
    (step (initCollector []) (.longtaskEv [{ startTime := 0, duration := 252/5 }])).metrics.longTasks
        = some [{ startTime := 0, duration := 50,
                  attribution := [{ taskType := "unknown", name := some "long-task" }] }]
    ∧ ¬ (50 : ℚ) < 50 := by
  have he : (50 : ℚ) < 252/5 := by norm_num
  constructor
  · have hstep : (step (initCollector [])
        (.longtaskEv [{ startTime := 0, duration := 252/5 }])).metrics
        = processLongTaskEntry (initCollector []).metrics
            { startTime := 0, duration := 252/5 } := rfl
    rw [hstep, processLongTaskEntry_long _ _ he]
    have h50 : jsRoundQ ((252 : ℚ)/5) = ((50 : ℤ) : ℚ) := by
      apply jsRoundQ_eq_of_bounds <;> norm_num
    have h0 : jsRoundQ (0 : ℚ) = ((0 : ℤ) : ℚ) := by
      apply jsRoundQ_eq_of_bounds <;> norm_num
    simp [initCollector_longTasks, normalizeLongTask, longTaskAttributionList,
      strOr, strTruthy, h50, h0]
  · norm_num

/-! ## CLS step characterization -/

theorem clsStep_recentInput (st : ℚ × List LayoutShift) (sh : LayoutShift)
    (hin : sh.hadRecentInput = true) : clsStep st sh = st := by
  unfold clsStep
  rw [hin]
  rfl

theorem clsStep_empty (v : ℚ) (sh : LayoutShift) (hin : sh.hadRecentInput = false) :
    clsStep (v, []) sh = (sh.value, [sh]) := by
  unfold clsStep
  rw [hin]
  rfl

theorem clsStep_merge (v : ℚ) (es : List LayoutShift) (sh first last : LayoutShift)
    (hin : sh.hadRecentInput = false) (hh : es.head? = some first)
    (hl : es.getLast? = some last)
    (hc : v ≠ 0 ∧ sh.startTime - last.startTime < 1000 ∧
      sh.startTime - first.startTime < 5000) :
    clsStep (v, es) sh = (v + sh.value, es ++ [sh]) := by
  unfold clsStep
  rw [hin]
  simp only [hh, hl, Bool.false_eq_true, if_false]
  rw [if_pos hc]

theorem clsStep_newSession (v : ℚ) (es : List LayoutShift) (sh first last : LayoutShift)
    (hin : sh.hadRecentInput = false) (hh : es.head? = some first)
    (hl : es.getLast? = some last)
    (hc : ¬ (v ≠ 0 ∧ sh.startTime - last.startTime < 1000 ∧
      sh.startTime - first.startTime < 5000)) :
    clsStep (v, es) sh = (sh.value, [sh]) := by
  unfold clsStep
  rw [hin]
  simp only [hh, hl, Bool.false_eq_true, if_false]
  rw [if_neg hc]

theorem clsStepClaim_empty (v : ℚ) (sh : LayoutShift) (hin : sh.hadRecentInput = false) :
    clsStepClaim (v, []) sh = (sh.value, [sh]) := by
  unfold clsStepClaim
  rw [hin]
  rfl

theorem clsStepClaim_merge (v : ℚ) (es : List LayoutShift) (sh first last : LayoutShift)
    (hin : sh.hadRecentInput = false) (hh : es.head? = some first)
    (hl : es.getLast? = some last)
    (hc : sh.startTime - last.startTime < 1000 ∧ sh.startTime - first.startTime < 5000) :
    clsStepClaim (v, es) sh = (v + sh.value, es ++ [sh]) := by
  unfold clsStepClaim
  rw [hin]
  simp only [hh, hl, Bool.false_eq_true, if_false]
  rw [if_pos hc]

theorem clsStepClaim_newSession (v : ℚ) (es : List LayoutShift) (sh first last : LayoutShift)
    (hin : sh.hadRecentInput = false) (hh : es.head? = some first)
    (hl : es.getLast? = some last)
    (hc : ¬ (sh.startTime - last.startTime < 1000 ∧ sh.startTime - first.startTime < 5000)) :
    clsStepClaim (v, es) sh = (sh.value, [sh]) := by
  unfold clsStepClaim
  rw [hin]
  simp only [hh, hl, Bool.false_eq_true, if_false]
  rw [if_neg hc]

theorem clsEv_spec (st : CollectorState) (es : List LayoutShift) :
    (step st (.clsEv es)).clsValue = (es.foldl clsStep (st.clsValue, st.clsEntries)).1
    ∧ (step st (.clsEv es)).clsEntries = (es.foldl clsStep (st.clsValue, st.clsEntries)).2
    ∧ (step st (.clsEv es)).metrics.cls =
        some (jsRoundQ ((es.foldl clsStep (st.clsValue, st.clsEntries)).1 * 1000) / 1000) :=
  ⟨rfl, rfl, rfl⟩

theorem initCollector_clsInit (bp : List PaintEntry) :
    ((initCollector bp).clsValue, (initCollector bp).clsEntries) = ((0 : ℚ), ([] : List LayoutShift)) :=
  rfl

/-! ## C2: the concrete CLS scenario -/

/-- C2 (amended): with no-input shifts at t=0 (value 0.1), t=500 (value
0.05) and t=4800 (value 0.2), the first two merge into one session (reported
running value 0.15), but the shift at t=4800 starts 4300 after the previous
member — not within 1000 — so it starts a new session and the reported CLS
is 0.2, the new session's own value; a further shift at t=6000 again starts
a new session whose running value is its own value alone (reported rounded
to three decimals). -/
theorem C2_cls_sessions :
    ((step (initCollector []) (.clsEv [⟨0, 1/10, false⟩, ⟨500, 1/20, false⟩])).metrics.cls
        = some (3/20))
    ∧ ((step (initCollector [])
        (.clsEv [⟨0, 1/10, false⟩, ⟨500, 1/20, false⟩, ⟨4800, 1/5, false⟩])).metrics.cls
        = some (1/5))
    ∧ ((step (initCollector [])
        (.clsEv [⟨0, 1/10, false⟩, ⟨500, 1/20, false⟩, ⟨4800, 1/5, false⟩])).clsEntries
        = [⟨4800, 1/5, false⟩])
    ∧ (∀ v : ℚ,
        (step (initCollector [])
          (.clsEv [⟨0, 1/10, false⟩, ⟨500, 1/20, false⟩, ⟨4800, 1/5, false⟩,
            ⟨6000, v, false⟩])).clsValue = v
        ∧ (step (initCollector [])
          (.clsEv [⟨0, 1/10, false⟩, ⟨500, 1/20, false⟩, ⟨4800, 1/5, false⟩,
            ⟨6000, v, false⟩])).clsEntries = [⟨6000, v, false⟩]
        ∧ (step (initCollector [])
          (.clsEv [⟨0, 1/10, false⟩, ⟨500, 1/20, false⟩, ⟨4800, 1/5, false⟩,
            ⟨6000, v, false⟩])).metrics.cls = some (jsRoundQ (v * 1000) / 1000)) := by
  have c1 : clsStep ((0 : ℚ), ([] : List LayoutShift)) ⟨0, 1/10, false⟩
      = (1/10, [⟨0, 1/10, false⟩]) := clsStep_empty 0 _ rfl
  have c2 : clsStep ((1 : ℚ)/10, [(⟨0, 1/10, false⟩ : LayoutShift)]) ⟨500, 1/20, false⟩
      = (1/10 + 1/20, [⟨0, 1/10, false⟩, ⟨500, 1/20, false⟩]) :=
    clsStep_merge (1/10) _ _ _ _ rfl rfl rfl
      ⟨by norm_num, by norm_num, by norm_num⟩
  have c3 : clsStep ((1 : ℚ)/10 + 1/20,
        [(⟨0, 1/10, false⟩ : LayoutShift), ⟨500, 1/20, false⟩]) ⟨4800, 1/5, false⟩
      = (1/5, [⟨4800, 1/5, false⟩]) :=
    clsStep_newSession _ _ _ ⟨0, 1/10, false⟩ ⟨500, 1/20, false⟩ rfl rfl rfl
      (fun h => absurd h.2.1 (by norm_num))
  have c4 : ∀ v : ℚ, clsStep ((1 : ℚ)/5, [(⟨4800, 1/5, false⟩ : LayoutShift)]) ⟨6000, v, false⟩
      = (v, [⟨6000, v, false⟩]) := fun v =>
    clsStep_newSession _ _ _ ⟨4800, 1/5, false⟩ ⟨4800, 1/5, false⟩ rfl rfl rfl
      (fun h => absurd h.2.1 (by norm_num))
  have h150 : jsRoundQ (((1 : ℚ)/10 + 1/20) * 1000) = ((150 : ℤ) : ℚ) := by
    apply jsRoundQ_eq_of_bounds <;> norm_num
  have h200 : jsRoundQ (((1 : ℚ)/5) * 1000) = ((200 : ℤ) : ℚ) := by
    apply jsRoundQ_eq_of_bounds <;> norm_num
  refine ⟨?_, ?_, ?_, ?_⟩
  · rw [(clsEv_spec _ _).2.2, initCollector_clsInit]
    simp only [List.foldl_cons, List.foldl_nil, c1, c2]
    rw [h150]
    norm_num
  · rw [(clsEv_spec _ _).2.2, initCollector_clsInit]
    simp only [List.foldl_cons, List.foldl_nil, c1, c2, c3]
    rw [h200]
    norm_num
  · rw [(clsEv_spec _ _).2.1, initCollector_clsInit]
    simp only [List.foldl_cons, List.foldl_nil, c1, c2, c3]
  · intro v
    refine ⟨?_, ?_, ?_⟩
    · rw [(clsEv_spec _ _).1, initCollector_clsInit]
      simp only [List.foldl_cons, List.foldl_nil, c1, c2, c3, c4 v]
    · rw [(clsEv_spec _ _).2.1, initCollector_clsInit]
      simp only [List.foldl_cons, List.foldl_nil, c1, c2, c3, c4 v]
    · rw [(clsEv_spec _ _).2.2, initCollector_clsInit]
      simp only [List.foldl_cons, List.foldl_nil, c1, c2, c3, c4 v]

/-- C2 counterexample: after the three shifts of the claim's scenario the
reported CLS is 0.2 — the third shift did not merge — and not the claimed
0.35. -/
theorem C2_counterexample :
    ((step (initCollector [])
        (.clsEv [⟨0, 1/10, false⟩, ⟨500, 1/20, false⟩, ⟨4800, 1/5, false⟩])).metrics.cls
        = some (1/5))
    ∧ (1 : ℚ)/5 ≠ 7/20 := by
  have c1 : clsStep ((0 : ℚ), ([] : List LayoutShift)) ⟨0, 1/10, false⟩
      = (1/10, [⟨0, 1/10, false⟩]) := clsStep_empty 0 _ rfl
  have c2 : clsStep ((1 : ℚ)/10, [(⟨0, 1/10, false⟩ : LayoutShift)]) ⟨500, 1/20, false⟩
      = (1/10 + 1/20, [⟨0, 1/10, false⟩, ⟨500, 1/20, false⟩]) :=
    clsStep_merge (1/10) _ _ _ _ rfl rfl rfl
      ⟨by norm_num, by norm_num, by norm_num⟩
  have c3 : clsStep ((1 : ℚ)/10 + 1/20,
        [(⟨0, 1/10, false⟩ : LayoutShift), ⟨500, 1/20, false⟩]) ⟨4800, 1/5, false⟩
      = (1/5, [⟨4800, 1/5, false⟩]) :=
    clsStep_newSession _ _ _ ⟨0, 1/10, false⟩ ⟨500, 1/20, false⟩ rfl rfl rfl
      (fun h => absurd h.2.1 (by norm_num))
  have h200 : jsRoundQ (((1 : ℚ)/5) * 1000) = ((200 : ℤ) : ℚ) := by
    apply jsRoundQ_eq_of_bounds <;> norm_num
  constructor
  · rw [(clsEv_spec _ _).2.2, initCollector_clsInit]
    simp only [List.foldl_cons, List.foldl_nil, c1, c2, c3]
    rw [h200]
    norm_num
  · norm_num

/-! ## C5: the general CLS merge rule -/

/-- C5 (amended): for a non-empty session, an incoming no-recent-input shift
merges into the current session — running value increased by its value, shift
appended — exactly when the current running value is nonzero AND its start
time is < 1000 after the previous member and < 5000 after the first member;
in every other case (including a session whose running value is 0) it
replaces the session and the new running value equals its own value. -/
theorem C5_cls_merge_rule (v : ℚ) (es : List LayoutShift) (sh first last : LayoutShift)
    (hin : sh.hadRecentInput = false) (hh : es.head? = some first)
    (hl : es.getLast? = some last) :
    (clsStep (v, es) sh = (v + sh.value, es ++ [sh]) ↔
      (v ≠ 0 ∧ sh.startTime - last.startTime < 1000 ∧
        sh.startTime - first.startTime < 5000))
    ∧ (¬ (v ≠ 0 ∧ sh.startTime - last.startTime < 1000 ∧
        sh.startTime - first.startTime < 5000) →
      clsStep (v, es) sh = (sh.value, [sh])) := by
  have hne : es ≠ [] := by
    intro heq
    rw [heq] at hh
    cases hh
  constructor
  · constructor
    · intro hstep
      by_cases hc : v ≠ 0 ∧ sh.startTime - last.startTime < 1000 ∧
          sh.startTime - first.startTime < 5000
      · exact hc
      · exfalso
        rw [clsStep_newSession v es sh first last hin hh hl hc] at hstep
        have h2 : ([sh] : List LayoutShift) = es ++ [sh] := congrArg Prod.snd hstep
        have hlen := congrArg List.length h2
        simp at hlen
        exact hne hlen
    · intro hc
      exact clsStep_merge v es sh first last hin hh hl hc
  · intro hc
    exact clsStep_newSession v es sh first last hin hh hl hc

/-- Witness for C5: a concrete merge — session {t=0, v=0.1}, incoming shift
at t=500 with value 0.05 merges, giving running value 0.15. -/
theorem C5_cls_merge_rule_witness :
    clsStep ((1 : ℚ)/10, [(⟨0, 1/10, false⟩ : LayoutShift)]) ⟨500, 1/20, false⟩
      = (1/10 + 1/20, [⟨0, 1/10, false⟩, ⟨500, 1/20, false⟩]) :=
  ((C5_cls_merge_rule (1/10) [⟨0, 1/10, false⟩] ⟨500, 1/20, false⟩
    ⟨0, 1/10, false⟩ ⟨0, 1/10, false⟩ rfl rfl rfl).1).mpr
    ⟨by norm_num, by norm_num, by norm_num⟩

/-- C5 counterexample: a session whose running value is 0 (one shift of
value 0 at t=0) and an incoming shift at t=900 that satisfies both timing
conditions: the implementation replaces the session instead of merging, and
over a longer trace this changes the reported value — the implementation
reports 0.6 where the claim's merge rule (modelled by `clsStepClaim`) yields
0.1. -/
theorem C5_counterexample :
    (clsStep ((0 : ℚ), [(⟨0, 0, false⟩ : LayoutShift)]) ⟨900, 1/10, false⟩
        = (1/10, [⟨900, 1/10, false⟩]))
    ∧ ((900 : ℚ) - 0 < 1000 ∧ (900 : ℚ) - 0 < 5000)
    ∧ ([(⟨0, 0, false⟩ : LayoutShift)] ++ [⟨900, 1/10, false⟩] ≠ [⟨900, 1/10, false⟩])
    ∧ ((([⟨0, 0, false⟩, ⟨900, 1/10, false⟩, ⟨1800, 1/10, false⟩, ⟨2700, 1/10, false⟩,
          ⟨3600, 1/10, false⟩, ⟨4500, 1/10, false⟩, ⟨5400, 1/10, false⟩] :
          List LayoutShift).foldl clsStep (0, [])).1 = 3/5)
    ∧ ((([⟨0, 0, false⟩, ⟨900, 1/10, false⟩, ⟨1800, 1/10, false⟩, ⟨2700, 1/10, false⟩,
          ⟨3600, 1/10, false⟩, ⟨4500, 1/10, false⟩, ⟨5400, 1/10, false⟩] :
          List LayoutShift).foldl clsStepClaim (0, [])).1 = 1/10)
    ∧ (3 : ℚ)/5 ≠ 1/10 := by
  have d1 : clsStep ((0 : ℚ), ([] : List LayoutShift)) ⟨0, 0, false⟩
      = (0, [⟨0, 0, false⟩]) := clsStep_empty 0 _ rfl
  have d2 : clsStep ((0 : ℚ), [(⟨0, 0, false⟩ : LayoutShift)]) ⟨900, 1/10, false⟩
      = (1/10, [⟨900, 1/10, false⟩]) :=
    clsStep_newSession _ _ _ ⟨0, 0, false⟩ ⟨0, 0, false⟩ rfl rfl rfl
      (fun h => absurd h.1 (by norm_num))
  have d3 : clsStep ((1 : ℚ)/10, [(⟨900, 1/10, false⟩ : LayoutShift)]) ⟨1800, 1/10, false⟩
      = (1/10 + 1/10, [⟨900, 1/10, false⟩, ⟨1800, 1/10, false⟩]) :=
    clsStep_merge _ _ _ _ _ rfl rfl rfl ⟨by norm_num, by norm_num, by norm_num⟩
  have d4 : clsStep ((1 : ℚ)/10 + 1/10,
        [(⟨900, 1/10, false⟩ : LayoutShift), ⟨1800, 1/10, false⟩]) ⟨2700, 1/10, false⟩
      = (1/10 + 1/10 + 1/10,
        [⟨900, 1/10, false⟩, ⟨1800, 1/10, false⟩, ⟨2700, 1/10, false⟩]) :=
    clsStep_merge _ _ _ ⟨900, 1/10, false⟩ ⟨1800, 1/10, false⟩ rfl rfl rfl
      ⟨by norm_num, by norm_num, by norm_num⟩
  have d5 : clsStep ((1 : ℚ)/10 + 1/10 + 1/10,
        [(⟨900, 1/10, false⟩ : LayoutShift), ⟨1800, 1/10, false⟩, ⟨2700, 1/10, false⟩])
        ⟨3600, 1/10, false⟩
      = (1/10 + 1/10 + 1/10 + 1/10,
        [⟨900, 1/10, false⟩, ⟨1800, 1/10, false⟩, ⟨2700, 1/10, false⟩, ⟨3600, 1/10, false⟩]) :=
    clsStep_merge _ _ _ ⟨900, 1/10, false⟩ ⟨2700, 1/10, false⟩ rfl rfl rfl
      ⟨by norm_num, by norm_num, by norm_num⟩
  have d6 : clsStep ((1 : ℚ)/10 + 1/10 + 1/10 + 1/10,
        [(⟨900, 1/10, false⟩ : LayoutShift), ⟨1800, 1/10, false⟩, ⟨2700, 1/10, false⟩,
          ⟨3600, 1/10, false⟩]) ⟨4500, 1/10, false⟩
      = (1/10 + 1/10 + 1/10 + 1/10 + 1/10,
        [⟨900, 1/10, false⟩, ⟨1800, 1/10, false⟩, ⟨2700, 1/10, false⟩, ⟨3600, 1/10, false⟩,
          ⟨4500, 1/10, false⟩]) :=
    clsStep_merge _ _ _ ⟨900, 1/10, false⟩ ⟨3600, 1/10, false⟩ rfl rfl rfl
      ⟨by norm_num, by norm_num, by norm_num⟩
  have d7 : clsStep ((1 : ℚ)/10 + 1/10 + 1/10 + 1/10 + 1/10,
        [(⟨900, 1/10, false⟩ : LayoutShift), ⟨1800, 1/10, false⟩, ⟨2700, 1/10, false⟩,
          ⟨3600, 1/10, false⟩, ⟨4500, 1/10, false⟩]) ⟨5400, 1/10, false⟩
      = (1/10 + 1/10 + 1/10 + 1/10 + 1/10 + 1/10,
        [⟨900, 1/10, false⟩, ⟨1800, 1/10, false⟩, ⟨2700, 1/10, false⟩, ⟨3600, 1/10, false⟩,
          ⟨4500, 1/10, false⟩, ⟨5400, 1/10, false⟩]) :=
    clsStep_merge _ _ _ ⟨900, 1/10, false⟩ ⟨4500, 1/10, false⟩ rfl rfl rfl
      ⟨by norm_num, by norm_num, by norm_num⟩
  have e1 : clsStepClaim ((0 : ℚ), ([] : List LayoutShift)) ⟨0, 0, false⟩
      = (0, [⟨0, 0, false⟩]) := clsStepClaim_empty 0 _ rfl
  have e2 : clsStepClaim ((0 : ℚ), [(⟨0, 0, false⟩ : LayoutShift)]) ⟨900, 1/10, false⟩
      = (0 + 1/10, [⟨0, 0, false⟩, ⟨900, 1/10, false⟩]) :=
    clsStepClaim_merge _ _ _ _ _ rfl rfl rfl ⟨by norm_num, by norm_num⟩
  have e3 : clsStepClaim ((0 : ℚ) + 1/10,
        [(⟨0, 0, false⟩ : LayoutShift), ⟨900, 1/10, false⟩]) ⟨1800, 1/10, false⟩
      = (0 + 1/10 + 1/10, [⟨0, 0, false⟩, ⟨900, 1/10, false⟩, ⟨1800, 1/10, false⟩]) :=
    clsStepClaim_merge _ _ _ ⟨0, 0, false⟩ ⟨900, 1/10, false⟩ rfl rfl rfl
      ⟨by norm_num, by norm_num⟩
  have e4 : clsStepClaim ((0 : ℚ) + 1/10 + 1/10,
        [(⟨0, 0, false⟩ : LayoutShift), ⟨900, 1/10, false⟩, ⟨1800, 1/10, false⟩])
        ⟨2700, 1/10, false⟩
      = (0 + 1/10 + 1/10 + 1/10,
        [⟨0, 0, false⟩, ⟨900, 1/10, false⟩, ⟨1800, 1/10, false⟩, ⟨2700, 1/10, false⟩]) :=
    clsStepClaim_merge _ _ _ ⟨0, 0, false⟩ ⟨1800, 1/10, false⟩ rfl rfl rfl
      ⟨by norm_num, by norm_num⟩
  have e5 : clsStepClaim ((0 : ℚ) + 1/10 + 1/10 + 1/10,
        [(⟨0, 0, false⟩ : LayoutShift), ⟨900, 1/10, false⟩, ⟨1800, 1/10, false⟩,
          ⟨2700, 1/10, false⟩]) ⟨3600, 1/10, false⟩
      = (0 + 1/10 + 1/10 + 1/10 + 1/10,
        [⟨0, 0, false⟩, ⟨900, 1/10, false⟩, ⟨1800, 1/10, false⟩, ⟨2700, 1/10, false⟩,
          ⟨3600, 1/10, false⟩]) :=
    clsStepClaim_merge _ _ _ ⟨0, 0, false⟩ ⟨2700, 1/10, false⟩ rfl rfl rfl
      ⟨by norm_num, by norm_num⟩
  have e6 : clsStepClaim ((0 : ℚ) + 1/10 + 1/10 + 1/10 + 1/10,
        [(⟨0, 0, false⟩ : LayoutShift), ⟨900, 1/10, false⟩, ⟨1800, 1/10, false⟩,
          ⟨2700, 1/10, false⟩, ⟨3600, 1/10, false⟩]) ⟨4500, 1/10, false⟩
      = (0 + 1/10 + 1/10 + 1/10 + 1/10 + 1/10,
        [⟨0, 0, false⟩, ⟨900, 1/10, false⟩, ⟨1800, 1/10, false⟩, ⟨2700, 1/10, false⟩,
          ⟨3600, 1/10, false⟩, ⟨4500, 1/10, false⟩]) :=
    clsStepClaim_merge _ _ _ ⟨0, 0, false⟩ ⟨3600, 1/10, false⟩ rfl rfl rfl
      ⟨by norm_num, by norm_num⟩
  have e7 : clsStepClaim ((0 : ℚ) + 1/10 + 1/10 + 1/10 + 1/10 + 1/10,
        [(⟨0, 0, false⟩ : LayoutShift), ⟨900, 1/10, false⟩, ⟨1800, 1/10, false⟩,
          ⟨2700, 1/10, false⟩, ⟨3600, 1/10, false⟩, ⟨4500, 1/10, false⟩]) ⟨5400, 1/10, false⟩
      = (1/10, [⟨5400, 1/10, false⟩]) :=
    clsStepClaim_newSession _ _ _ ⟨0, 0, false⟩ ⟨4500, 1/10, false⟩ rfl rfl rfl
      (fun h => absurd h.2 (by norm_num))
  refine ⟨d2, ⟨by norm_num, by norm_num⟩, by simp, ?_, ?_, by norm_num⟩
  · simp only [List.foldl_cons, List.foldl_nil, d1, d2, d3, d4, d5, d6, d7]
    norm_num
  · simp only [List.foldl_cons, List.foldl_nil, e1, e2, e3, e4, e5, e6, e7]

/-! ## C4: LCP selection -/

theorem applyLCPEntry_lcp (m : Metrics) (e : LCPEntry) (hv : 0 < lcpSelect e) :
    (applyLCPEntry m e).lcp = some (jsRoundQ (lcpSelect e)) := by
  simp only [applyLCPEntry]
  rw [if_pos hv]
  cases he : e.elementPath with
  | none => rfl
  | some p => by_cases hp : p = "" <;> simp [hp]

theorem applyLCPEntry_path (m : Metrics) (e : LCPEntry) (p : String) (hv : 0 < lcpSelect e)
    (hp : e.elementPath = some p) (hpe : p ≠ "") :
    (applyLCPEntry m e).lcpElement = some p := by
  simp only [applyLCPEntry]
  rw [if_pos hv, hp]
  simp [hpe]

theorem lcpSelect_render (e : LCPEntry) (h : optPos e.renderTime = true) :
    lcpSelect e = e.renderTime.getD 0 := by
  unfold lcpSelect
  cases hr : e.renderTime with
  | none => simp [optPos, hr] at h
  | some r =>
    rw [hr] at h
    simp only [optPos, decide_eq_true_eq] at h
    simp [hr, h]

theorem lcpSelect_load (e : LCPEntry) (hr : optPos e.renderTime = false)
    (hl : optPos e.loadTime = true) : lcpSelect e = e.loadTime.getD 0 := by
  unfold lcpSelect
  cases her : e.renderTime with
  | none =>
    cases hel : e.loadTime with
    | none => simp [optPos, hel] at hl
    | some l =>
      rw [hel] at hl
      simp only [optPos, decide_eq_true_eq] at hl
      simp [hel, hl]
  | some r =>
    rw [her] at hr
    simp only [optPos, decide_eq_false_iff_not, not_lt] at hr
    have hnr : ¬ 0 < r := not_lt.mpr hr
    cases hel : e.loadTime with
    | none => simp [optPos, hel] at hl
    | some l =>
      rw [hel] at hl
      simp only [optPos, decide_eq_true_eq] at hl
      simp [her, hel, hnr, hl]

theorem lcpSelect_startTime (e : LCPEntry) (hr : optPos e.renderTime = false)
    (hl : optPos e.loadTime = false) : lcpSelect e = e.startTime := by
  unfold lcpSelect
  cases her : e.renderTime with
  | none =>
    cases hel : e.loadTime with
    | none => simp [hel]
    | some l =>
      rw [hel] at hl
      simp only [optPos, decide_eq_false_iff_not, not_lt] at hl
      simp [hel, not_lt.mpr hl]
  | some r =>
    rw [her] at hr
    simp only [optPos, decide_eq_false_iff_not, not_lt] at hr
    cases hel : e.loadTime with
    | none => simp [her, hel, not_lt.mpr hr]
    | some l =>
      rw [hel] at hl
      simp only [optPos, decide_eq_false_iff_not, not_lt] at hl
      simp [her, hel, not_lt.mpr hr, not_lt.mpr hl]

/-- C4 (confirmed): for a candidate observation whose selected value is
positive, the stored LCP value is the (rounded) value chosen by the policy —
renderTime when positive, else loadTime when positive, else startTime — the
three example selections come out as stated, the candidate element's
non-empty serialized path overwrites the prior one, and `collect()`
re-applies the same selection to the last raw observation in history. -/
theorem C4_lcp_selection (m : Metrics) (e : LCPEntry) (hist : List LCPEntry)
    (st : CollectorState) (nav : Option NavTiming) (hv : 0 < lcpSelect e) :
    ((applyLCPEntry m e).lcp = some (jsRoundQ (lcpSelect e)))
    ∧ (∀ p, e.elementPath = some p → p ≠ "" → (applyLCPEntry m e).lcpElement = some p)
    ∧ (optPos e.renderTime = true → lcpSelect e = e.renderTime.getD 0)
    ∧ (optPos e.renderTime = false → optPos e.loadTime = true →
        lcpSelect e = e.loadTime.getD 0)
    ∧ (optPos e.renderTime = false → optPos e.loadTime = false →
        lcpSelect e = e.startTime)
    ∧ lcpSelect { renderTime := some 1200, loadTime := some 1500 } = 1200
    ∧ lcpSelect { renderTime := some 0, loadTime := some 900 } = 900
    ∧ lcpSelect { renderTime := some 0, loadTime := some 0, startTime := 300 } = 300
    ∧ (hist.getLast? = some e →
        (collect st nav hist).2.lcp = some (jsRoundQ (lcpSelect e))) := by
  refine ⟨applyLCPEntry_lcp m e hv,
    fun p hp hpe => applyLCPEntry_path m e p hv hp hpe,
    lcpSelect_render e, lcpSelect_load e, lcpSelect_startTime e,
    by norm_num [lcpSelect], by norm_num [lcpSelect], by norm_num [lcpSelect], ?_⟩
  intro hlast
  show (collectFinalLCPm (collectNavigationTiming st.metrics nav) hist).lcp = _
  unfold collectFinalLCPm
  rw [hlast]
  exact applyLCPEntry_lcp _ e hv

/-- Witness for C4: the first example entry (renderTime 1200, loadTime 1500,
path "html > body > img") stores lcp = 1200 and the path. -/
theorem C4_lcp_selection_witness :
    (applyLCPEntry {} { renderTime := some 1200, loadTime := some 1500, elementPath := some "html > body > img" }).lcp = some (jsRoundQ 1200)
    ∧ (applyLCPEntry {} { renderTime := some 1200, loadTime := some 1500, elementPath := some "html > body > img" }).lcpElement = some "html > body > img" := by
  have hv : 0 < lcpSelect { renderTime := some 1200, loadTime := some 1500, elementPath := some "html > body > img" } := by norm_num [lcpSelect]
  have h := C4_lcp_selection {} { renderTime := some 1200, loadTime := some 1500, elementPath := some "html > body > img" } [] { metrics := {} } none hv
  refine ⟨?_, h.2.1 "html > body > img" rfl (by simp)⟩
  have h1 := h.1
  rw [h1]
  congr 1

/-! ## C3: the reflow cap -/

theorem pushFrameDropRecord_length (now dt : ℚ) (df : ℕ) (s : RenderMonitorState)
    (p : String × ℕ) :
    (pushFrameDropRecord now dt df s p).reflows.length = s.reflows.length + 1 := by
  simp [pushFrameDropRecord]

theorem fold_length_add {α : Type} (f : RenderMonitorState → α → RenderMonitorState)
    (hf : ∀ s p, (f s p).reflows.length = s.reflows.length + 1)
    (l : List α) (s : RenderMonitorState) :
    (l.foldl f s).reflows.length = s.reflows.length + l.length := by
  induction l generalizing s with
  | nil => simp
  | cons a rest ih =>
    rw [List.foldl_cons, ih, hf]
    simp only [List.length_cons]
    omega

theorem recordPotentialReflow_capped (st : RenderMonitorState) (now dt : ℚ) (df : ℕ)
    (h : 1000 ≤ st.reflows.length) : recordPotentialReflow st now dt df = st := by
  unfold recordPotentialReflow
  rw [if_pos h]

theorem recordPotentialReflow_length_le (st : RenderMonitorState) (now dt : ℚ) (df : ℕ) :
    (recordPotentialReflow st now dt df).reflows.length ≤ st.reflows.length + 5 := by
  simp only [recordPotentialReflow]
  split
  · omega
  · split
    · omega
    · rw [fold_length_add _ (pushFrameDropRecord_length now dt df) _ st]
      have hle : ((sortByCountDesc st.suspicious).take 5).length ≤ 5 := by
        rw [List.length_take]
        exact min_le_left _ _
      omega

theorem recordPotentialReflow_invariant (st : RenderMonitorState) (now dt : ℚ) (df : ℕ)
    (h : st.reflows.length ≤ 1004) :
    (recordPotentialReflow st now dt df).reflows.length ≤ 1004 := by
  by_cases hc : 1000 ≤ st.reflows.length
  · rw [recordPotentialReflow_capped st now dt df hc]
    exact h
  · have := recordPotentialReflow_length_le st now dt df
    omega

/-- C3 (amended): only the frame-drift source is capped — once the reflow
sequence holds at least 1000 records `recordPotentialReflow` drops its whole
batch, one call below the cap appends at most 5 records (so frame-drift
records alone never push the sequence past 1004 along any run) — while
attribute-triggered mutation records and explicit marks always append one
record each, bypassing the cap entirely. -/
theorem C3_reflow_cap (st : RenderMonitorState) (now dt : ℚ) (df : ℕ)
    (calls : List (ℚ × ℚ × ℕ)) (elPath attr : String) (ts dur : ℚ)
    (elOpt reasonOpt : Option String) :
    (1000 ≤ st.reflows.length → recordPotentialReflow st now dt df = st)
    ∧ ((recordPotentialReflow st now dt df).reflows.length ≤ st.reflows.length + 5)
    ∧ (st.reflows.length ≤ 1004 →
        (calls.foldl (fun s c => recordPotentialReflow s c.1 c.2.1 c.2.2) st).reflows.length
          ≤ 1004)
    ∧ ((recordReflowFromMutation st now elPath attr).reflows.length
        = st.reflows.length + 1)
    ∧ ((markReflowComplete st ts dur elOpt reasonOpt).reflows.length
        = st.reflows.length + 1) := by
  refine ⟨recordPotentialReflow_capped st now dt df,
    recordPotentialReflow_length_le st now dt df, ?_, ?_, ?_⟩
  · intro h
    induction calls generalizing st with
    | nil => simpa using h
    | cons c rest ih =>
      rw [List.foldl_cons]
      exact ih _ (recordPotentialReflow_invariant st c.1 c.2.1 c.2.2 h)
  · simp [recordReflowFromMutation]
  · simp [markReflowComplete]

/-- Witness for C3: at a state holding exactly 1000 reflow records, a
frame-drift call is a no-op while a mutation record still appends (length
1001). -/
theorem C3_reflow_cap_witness :
    (recordPotentialReflow
        { reflows := List.replicate 1000 { timestamp := 0, duration := 0, reason := "manual" } }
        0 25 3
      = { reflows := List.replicate 1000 { timestamp := 0, duration := 0, reason := "manual" } })
    ∧ ((recordReflowFromMutation
        { reflows := List.replicate 1000 { timestamp := 0, duration := 0, reason := "manual" } }
        0 "div" "style").reflows.length = 1001) := by
  have h := C3_reflow_cap
    { reflows := List.replicate 1000 { timestamp := 0, duration := 0, reason := "manual" } }
    0 25 3 [] "div" "style" 0 0 none none
  have hlen : (List.replicate 1000
      ({ timestamp := 0, duration := 0, reason := "manual" } : ReflowInfo)).length = 1000 :=
    List.length_replicate _ _
  refine ⟨h.1 (by rw [hlen]), ?_⟩
  rw [h.2.2.2.1]
  show (List.replicate 1000
    ({ timestamp := 0, duration := 0, reason := "manual" } : ReflowInfo)).length + 1 = 1001
  rw [hlen]

/-- C3 counterexample: 1001 successive attribute-triggered mutation records
are all appended, so the heuristic reflow sequence exceeds 1000 entries. -/
theorem C3_counterexample :
    ((fun s => recordReflowFromMutation s 0 "div#app" "style")^[1001]
        ({} : RenderMonitorState)).reflows.length = 1001
    ∧ 1000 < 1001 := by
  have hiter : ∀ (n : ℕ) (st : RenderMonitorState),
      ((fun s => recordReflowFromMutation s 0 "div#app" "style")^[n] st).reflows.length
        = st.reflows.length + n := by
    intro n
    induction n with
    | zero => simp
    | succ k ih =>
      intro st
      rw [Function.iterate_succ_apply, ih]
      simp [recordReflowFromMutation]
      omega
  refine ⟨?_, by norm_num⟩
  rw [hiter 1001 {}]
  rfl

/-! ## C6: GPU-acceleration classification -/

theorem checkGPU_methods (path : String) (s : ComputedStyle) :
    (checkGPUAcceleration path s).accelerationMethods =
      (if willChangeActive s then ["will-change"] else [])
      ++ (if transformActive s then
            ["transform"] ++ (if has3DTransform s then ["transform-3d"] else [])
          else if hasTransformTransition s then ["transform-transition"] else [])
      ++ (if opacityActive s then ["opacity"] else [])
      ++ (if filterActive s then ["filter"] else [])
      ++ (if backdropFilterActive s then ["backdrop-filter"] else []) := by
  unfold checkGPUAcceleration
  by_cases h1 : willChangeActive s <;>
    by_cases h2 : transformActive s <;>
      by_cases h3 : has3DTransform s <;>
        by_cases h4 : hasTransformTransition s <;>
          by_cases h5 : opacityActive s <;>
            by_cases h6 : filterActive s <;>
              by_cases h7 : backdropFilterActive s <;>
                simp [h1, h2, h3, h4, h5, h6, h7, List.contains]

theorem checkGPU_isAccelerated (path : String) (s : ComputedStyle) :
    (checkGPUAcceleration path s).isAccelerated =
      (willChangeActive s || transformActive s || hasTransformTransition s ||
        opacityActive s || filterActive s || backdropFilterActive s) := by
  unfold checkGPUAcceleration
  by_cases h1 : willChangeActive s <;>
    by_cases h2 : transformActive s <;>
      by_cases h3 : has3DTransform s <;>
        by_cases h4 : hasTransformTransition s <;>
          by_cases h5 : opacityActive s <;>
            by_cases h6 : filterActive s <;>
              by_cases h7 : backdropFilterActive s <;>
                simp [h1, h2, h3, h4, h5, h6, h7]

theorem opacityActive_iff (s : ComputedStyle) :
    opacityActive s = true ↔ ∃ o, s.opacity = some o ∧ 0 ≤ o ∧ o < 1 := by
  unfold opacityActive
  cases ho : s.opacity with
  | none => simp
  | some o =>
    simp only [Bool.and_eq_true, decide_eq_true_eq, Option.some.injEq]
    constructor
    · rintro ⟨h1, h2⟩
      exact ⟨o, rfl, h2, h1⟩
    · rintro ⟨o', ho', h1, h2⟩
      cases ho'
      exact ⟨h2, h1⟩

theorem mem_willChange (path : String) (s : ComputedStyle) :
    "will-change" ∈ (checkGPUAcceleration path s).accelerationMethods ↔
      willChangeActive s = true := by
  rw [checkGPU_methods]
  split_ifs <;> simp_all

theorem mem_transform (path : String) (s : ComputedStyle) :
    "transform" ∈ (checkGPUAcceleration path s).accelerationMethods ↔
      transformActive s = true := by
  rw [checkGPU_methods]
  split_ifs <;> simp_all

theorem mem_transform3d (path : String) (s : ComputedStyle) :
    "transform-3d" ∈ (checkGPUAcceleration path s).accelerationMethods ↔
      (transformActive s = true ∧ has3DTransform s = true) := by
  rw [checkGPU_methods]
  split_ifs <;> simp_all

theorem mem_transformTransition (path : String) (s : ComputedStyle) :
    "transform-transition" ∈ (checkGPUAcceleration path s).accelerationMethods ↔
      (transformActive s = false ∧ hasTransformTransition s = true) := by
  rw [checkGPU_methods]
  split_ifs <;> simp_all

theorem mem_opacity (path : String) (s : ComputedStyle) :
    "opacity" ∈ (checkGPUAcceleration path s).accelerationMethods ↔
      opacityActive s = true := by
  rw [checkGPU_methods]
  split_ifs <;> simp_all

theorem mem_filter (path : String) (s : ComputedStyle) :
    "filter" ∈ (checkGPUAcceleration path s).accelerationMethods ↔
      filterActive s = true := by
  rw [checkGPU_methods]
  split_ifs <;> simp_all

theorem mem_backdropFilter (path : String) (s : ComputedStyle) :
    "backdrop-filter" ∈ (checkGPUAcceleration path s).accelerationMethods ↔
      backdropFilterActive s = true := by
  rw [checkGPU_methods]
  split_ifs <;> simp_all

theorem accel_iff_nonempty (path : String) (s : ComputedStyle) :
    (checkGPUAcceleration path s).isAccelerated = true ↔
      (checkGPUAcceleration path s).accelerationMethods ≠ [] := by
  rw [checkGPU_isAccelerated, checkGPU_methods]
  split_ifs <;> simp_all

/-- C6 (amended): the classifier records every matching method and only
those — will-change set and not auto; transform active (not none/identity),
plus transform-3d exactly when 3-D functions appear in an active transform;
transform-transition exactly when the transform is inactive but a transition
targets it with positive duration; opacity recorded exactly when the parsed
opacity lies in [0, 1) (the implementation also counts opacity 0, unlike the
claim's open interval); filter and backdrop-filter set and not none — and
`isAccelerated` holds exactly when at least one method matched; in
particular `transform: translateZ(0)` yields methods
{transform, transform-3d} and an element with only `opacity: 1` is not
accelerated. -/
theorem C6_gpu_classification (path : String) (s : ComputedStyle) :
    ("will-change" ∈ (checkGPUAcceleration path s).accelerationMethods ↔
        willChangeActive s = true)
    ∧ ("transform" ∈ (checkGPUAcceleration path s).accelerationMethods ↔
        transformActive s = true)
    ∧ ("transform-3d" ∈ (checkGPUAcceleration path s).accelerationMethods ↔
        (transformActive s = true ∧ has3DTransform s = true))
    ∧ ("transform-transition" ∈ (checkGPUAcceleration path s).accelerationMethods ↔
        (transformActive s = false ∧ hasTransformTransition s = true))
    ∧ ("opacity" ∈ (checkGPUAcceleration path s).accelerationMethods ↔
        opacityActive s = true)
    ∧ (opacityActive s = true ↔ ∃ o, s.opacity = some o ∧ 0 ≤ o ∧ o < 1)
    ∧ ("filter" ∈ (checkGPUAcceleration path s).accelerationMethods ↔
        filterActive s = true)
    ∧ ("backdrop-filter" ∈ (checkGPUAcceleration path s).accelerationMethods ↔
        backdropFilterActive s = true)
    ∧ ((checkGPUAcceleration path s).isAccelerated = true ↔
        (checkGPUAcceleration path s).accelerationMethods ≠ [])
    ∧ ((checkGPUAcceleration "div" { transform := "translateZ(0)" }).accelerationMethods
        = ["transform", "transform-3d"])
    ∧ ((checkGPUAcceleration "div" { transform := "translateZ(0)" }).isAccelerated = true)
    ∧ ((checkGPUAcceleration "div" { opacity := some 1 }).isAccelerated = false) := by
  refine ⟨mem_willChange path s, mem_transform path s, mem_transform3d path s,
    mem_transformTransition path s, mem_opacity path s, opacityActive_iff s,
    mem_filter path s, mem_backdropFilter path s, accel_iff_nonempty path s,
    by decide, by decide, by decide⟩

/-- Witness for C6: an element with parsed opacity 0 — which lies in
[0, 1) — gets the "opacity" method recorded. -/
theorem C6_gpu_classification_witness :
    "opacity" ∈ (checkGPUAcceleration "span" { opacity := some 0 }).accelerationMethods :=
  (C6_gpu_classification "span" { opacity := some 0 }).2.2.2.2.1.mpr (by decide)

/-- C6 counterexample: an element whose only non-default property is
`opacity: 0` is classified as GPU-accelerated with method "opacity", even
though 0 is not strictly inside (0, 1) as the claim requires. -/
theorem C6_counterexample :
    ((checkGPUAcceleration "div" { opacity := some 0 }).accelerationMethods = ["opacity"])
    ∧ ((checkGPUAcceleration "div" { opacity := some 0 }).isAccelerated = true)
    ∧ ¬ ((0 : ℚ) < 0 ∧ (0 : ℚ) < 1) := by
  refine ⟨by decide, by decide, ?_⟩
  rintro ⟨h, -⟩
  exact absurd h (by norm_num)

/-! ## C7 and C8: the Reporter -/

theorem report_batched (st : ReporterState) (inp : ReportInput) (now : ℤ)
    (url ua : String) (env : TransportEnv) (him : st.immediate = false) :
    report st inp now url ua env
      = .ok { st with queue := st.queue ++ [stampEnvelope st inp now url ua] } := by
  unfold report
  rw [him]
  simp

theorem send_calls (st : ReporterState) (data : List ReportData) (env : TransportEnv) :
    send st data env = .ok { st with
      calls := st.calls ++ [{ channel := sendChannelOf st env, payload := data }]
      queue := if st.reportUrl ≠ none ∧ ¬ env.beaconAvailable ∧ env.fetchFails ∧
          ¬ st.immediate then st.queue ++ data else st.queue } := by
  unfold send sendChannelOf
  cases hurl : st.reportUrl with
  | none => simp [hurl]
  | some u =>
    by_cases hb : env.beaconAvailable
    · simp [hurl, hb]
    · by_cases hf : env.fetchFails
      · by_cases him : st.immediate
        · simp [hurl, hb, hf, him]
        · simp [hurl, hb, hf, him]
      · simp [hurl, hb, hf]

theorem reportAll_batched (items : List (ReportInput × ℤ × String × String))
    (st : ReporterState) (env : TransportEnv) (him : st.immediate = false) :
    reportAll st items env
      = .ok { st with queue := st.queue ++ items.map (fun it => stampEnvelope st it.1 it.2.1 it.2.2.1 it.2.2.2) } := by
  induction items generalizing st with
  | nil => simp [reportAll]
  | cons it rest ih =>
    unfold reportAll
    rw [report_batched st it.1 it.2.1 it.2.2.1 it.2.2.2 env him]
    dsimp only
    rw [ih { st with queue := st.queue ++ [stampEnvelope st it.1 it.2.1 it.2.2.1 it.2.2.2] } him]
    simp [stampEnvelope, List.append_assoc]

/-- C7 (confirmed): `report()` stamps timestamp, url, user agent and the
client identity onto the envelope; in batched mode (the default) it only
enqueues — any sequence of batched `report()` calls performs no transmission
and accumulates the stamped envelopes in order, until `destroy()` (or the
batch timer) flushes the whole queue as one send; in immediate mode each
`report()` triggers exactly one send whose payload is exactly that one
stamped envelope, and the queue is left untouched. -/
theorem C7_report_modes (st : ReporterState) (inp : ReportInput) (now : ℤ)
    (url ua : String) (env : TransportEnv)
    (items : List (ReportInput × ℤ × String × String)) :
    ((stampEnvelope st inp now url ua).timestamp = now
      ∧ (stampEnvelope st inp now url ua).url = url
      ∧ (stampEnvelope st inp now url ua).userAgent = ua
      ∧ (stampEnvelope st inp now url ua).appId = st.appId
      ∧ (stampEnvelope st inp now url ua).userId = st.userId)
    ∧ (st.immediate = false →
        report st inp now url ua env
          = .ok { st with queue := st.queue ++ [stampEnvelope st inp now url ua] })
    ∧ (st.immediate = false →
        reportAll st items env
          = .ok { st with queue := st.queue ++ items.map (fun it => stampEnvelope st it.1 it.2.1 it.2.2.1 it.2.2.2) })
    ∧ (st.immediate = true → ∀ st2, report st inp now url ua env = .ok st2 →
        st2.queue = st.queue ∧ st2.calls = st.calls ++
          [{ channel := sendChannelOf st env, payload := [stampEnvelope st inp now url ua] }])
    ∧ (st.queue ≠ [] →
        destroyReporter st env
          = send { st with timerActive := false, queue := [] } st.queue env) := by
  refine ⟨⟨rfl, rfl, rfl, rfl, rfl⟩,
    report_batched st inp now url ua env,
    fun him => reportAll_batched items st env him, ?_, ?_⟩
  · intro him st2 hrep
    unfold report at hrep
    rw [him] at hrep
    simp only [if_true] at hrep
    rw [send_calls] at hrep
    have h2 := Except.ok.inj hrep.symm
    subst h2
    simp [him]
  · intro hq
    unfold destroyReporter batchReport
    rw [if_neg (by simpa using hq)]

/-- Witness for C7: a concrete batched reporter enqueues the stamped
envelope without transmitting, and a concrete immediate reporter performs
exactly one send of exactly that envelope. -/
theorem C7_report_modes_witness :
    (report { reportUrl := some "https://api/report", appId := some "app" } { type := "performance", data := "d" } 5 "https://page" "UA" { beaconAvailable := true, fetchFails := false }
      = .ok { reportUrl := some "https://api/report", appId := some "app", queue := [{ type := "performance", data := "d", timestamp := 5, url := "https://page", userAgent := "UA", appId := some "app" }] })
    ∧ (∀ st2, report { reportUrl := some "https://api/report", immediate := true } { type := "performance", data := "d" } 5 "https://page" "UA" { beaconAvailable := true, fetchFails := false } = .ok st2 →
        st2.queue = [] ∧ st2.calls = [{ channel := .beacon, payload := [{ type := "performance", data := "d", timestamp := 5, url := "https://page", userAgent := "UA" }] }]) := by
  constructor
  · have h := (C7_report_modes { reportUrl := some "https://api/report", appId := some "app" }
      { type := "performance", data := "d" } 5 "https://page" "UA"
      { beaconAvailable := true, fetchFails := false } []).2.1 rfl
    rw [h]
    rfl
  · intro st2 hrep
    have h := (C7_report_modes { reportUrl := some "https://api/report", immediate := true }
      { type := "performance", data := "d" } 5 "https://page" "UA"
      { beaconAvailable := true, fetchFails := false } []).2.2.2.1 rfl st2 hrep
    exact h

/-- C8 (confirmed): when the keep-alive `fetch` fallback fails (destination
present, `sendBeacon` unavailable), the failed envelopes are appended back
onto the queue in batched mode and dropped in immediate mode, and in both
modes `send` returns normally — the failure is never raised to the caller. -/
theorem C8_fetch_failure (st : ReporterState) (data : List ReportData)
    (env : TransportEnv) (u : String) (hurl : st.reportUrl = some u)
    (hb : env.beaconAvailable = false) (hf : env.fetchFails = true) :
    (st.immediate = false →
      send st data env = .ok { st with
        calls := st.calls ++ [{ channel := .fetchCall, payload := data }]
        queue := st.queue ++ data })
    ∧ (st.immediate = true →
      send st data env = .ok { st with
        calls := st.calls ++ [{ channel := .fetchCall, payload := data }] })
    ∧ (∃ st2, send st data env = Except.ok st2) := by
  have hch : sendChannelOf st env = .fetchCall := by
    unfold sendChannelOf
    rw [hurl]
    simp [hb]
  refine ⟨?_, ?_, ?_⟩
  · intro him
    rw [send_calls, hch]
    rw [if_pos ⟨by simp [hurl], by simp [hb], by simp [hf], by simp [him]⟩]
  · intro him
    rw [send_calls, hch]
    rw [if_neg (by simp [him])]
  · exact ⟨_, send_calls st data env⟩

/-- Witness for C8: a concrete batched-mode fetch failure requeues the
envelope; a concrete immediate-mode failure leaves the queue empty. -/
theorem C8_fetch_failure_witness :
    (send { reportUrl := some "https://api/report" } [{ type := "performance", data := "d", timestamp := 5, url := "u", userAgent := "UA" }] { beaconAvailable := false, fetchFails := true }
      = .ok { reportUrl := some "https://api/report", queue := [{ type := "performance", data := "d", timestamp := 5, url := "u", userAgent := "UA" }], calls := [{ channel := .fetchCall, payload := [{ type := "performance", data := "d", timestamp := 5, url := "u", userAgent := "UA" }] }] })
    ∧ (send { reportUrl := some "https://api/report", immediate := true } [{ type := "performance", data := "d", timestamp := 5, url := "u", userAgent := "UA" }] { beaconAvailable := false, fetchFails := true }
      = .ok { reportUrl := some "https://api/report", immediate := true, calls := [{ channel := .fetchCall, payload := [{ type := "performance", data := "d", timestamp := 5, url := "u", userAgent := "UA" }] }] }) := by
  constructor
  · have h := (C8_fetch_failure { reportUrl := some "https://api/report" }
      [{ type := "performance", data := "d", timestamp := 5, url := "u", userAgent := "UA" }]
      { beaconAvailable := false, fetchFails := true } "https://api/report" rfl rfl rfl).1 rfl
    rw [h]
    rfl
  · have h := (C8_fetch_failure { reportUrl := some "https://api/report", immediate := true }
      [{ type := "performance", data := "d", timestamp := 5, url := "u", userAgent := "UA" }]
      { beaconAvailable := false, fetchFails := true } "https://api/report" rfl rfl rfl).2.1 rfl
    rw [h]
    rfl

/-! ## C10: every stored value is rounded -/

theorem qIsInt_jsRoundQ (x : ℚ) : qIsInt (jsRoundQ x) = true := by
  simp [qIsInt, jsRoundQ, Rat.den_intCast]

theorem qIsInt_zero : qIsInt (0 : ℚ) = true := rfl

theorem qIsInt_clsValue (v : ℚ) : qIsInt (jsRoundQ v / 1000 * 1000) = true := by
  have h : jsRoundQ v / 1000 * 1000 = jsRoundQ v :=
    div_mul_cancel₀ (jsRoundQ v) (by norm_num)
  rw [h]
  exact qIsInt_jsRoundQ v

theorem metricsRounded_set_fcp (m : Metrics) (x : ℚ) (hx : qIsInt x = true)
    (h : metricsRounded m = true) : metricsRounded { m with fcp := some x } = true := by
  simp only [metricsRounded, Bool.and_eq_true, optRounded] at h ⊢
  tauto

theorem metricsRounded_set_lcp (m : Metrics) (x : ℚ) (hx : qIsInt x = true)
    (h : metricsRounded m = true) : metricsRounded { m with lcp := some x } = true := by
  simp only [metricsRounded, Bool.and_eq_true, optRounded] at h ⊢
  tauto

theorem metricsRounded_set_lcp_path (m : Metrics) (x : ℚ) (p : String)
    (hx : qIsInt x = true) (h : metricsRounded m = true) :
    metricsRounded { m with lcp := some x, lcpElement := some p } = true := by
  simp only [metricsRounded, Bool.and_eq_true, optRounded] at h ⊢
  tauto

theorem metricsRounded_set_fid (m : Metrics) (x : ℚ) (hx : qIsInt x = true)
    (h : metricsRounded m = true) : metricsRounded { m with fid := some x } = true := by
  simp only [metricsRounded, Bool.and_eq_true, optRounded] at h ⊢
  tauto

theorem metricsRounded_applyPaintEntry (m : Metrics) (p : PaintEntry)
    (h : metricsRounded m = true) : metricsRounded (applyPaintEntry m p) = true := by
  unfold applyPaintEntry
  split
  · exact metricsRounded_set_fcp m _ (qIsInt_jsRoundQ _) h
  · exact h

theorem metricsRounded_applyFirstInputEntry (m : Metrics) (e : FirstInputEntry)
    (h : metricsRounded m = true) : metricsRounded (applyFirstInputEntry m e) = true := by
  unfold applyFirstInputEntry
  split
  · exact metricsRounded_set_fid m _ (qIsInt_jsRoundQ _) h
  · exact h

theorem metricsRounded_applyLCPEntry (m : Metrics) (e : LCPEntry)
    (h : metricsRounded m = true) : metricsRounded (applyLCPEntry m e) = true := by
  unfold applyLCPEntry
  by_cases hv : 0 < lcpSelect e
  · rw [if_pos hv]
    cases he : e.elementPath with
    | none => exact metricsRounded_set_lcp m _ (qIsInt_jsRoundQ _) h
    | some p =>
      dsimp only
      by_cases hp : p = ""
      · rw [if_neg (by simp [hp])]
        exact metricsRounded_set_lcp m _ (qIsInt_jsRoundQ _) h
      · rw [if_pos hp]
        exact metricsRounded_set_lcp_path m _ p (qIsInt_jsRoundQ _) h
  · rw [if_neg hv]
    exact h

theorem metricsRounded_processLongTaskEntry (m : Metrics) (e : LongTaskEntry)
    (h : metricsRounded m = true) : metricsRounded (processLongTaskEntry m e) = true := by
  unfold processLongTaskEntry
  split
  · have htbt : qIsInt ((m.tbt.getD 0) + jsRoundQ (e.duration - 50)) = true := by
      have hd : (m.tbt.getD 0).den = 1 := by
        cases ht : m.tbt with
        | none => simp
        | some t =>
          simp only [metricsRounded, Bool.and_eq_true, optRounded, ht] at h
          simpa [qIsInt] using h.1.1.1.1.1.1.1.1.1.2
      have hr : (jsRoundQ (e.duration - 50)).den = 1 := by
        simpa [qIsInt] using qIsInt_jsRoundQ (e.duration - 50)
      simpa [qIsInt] using qIsInt_add hd hr
    have hlt : ([normalizeLongTask e].all fun t => qIsInt t.startTime && qIsInt t.duration)
        = true := by
      simp [normalizeLongTask, qIsInt_jsRoundQ]
    simp only [metricsRounded, Bool.and_eq_true, optRounded, Option.getD_some,
      List.all_append] at h ⊢
    tauto
  · exact h

theorem metricsRounded_observeCLSCallback (st : CollectorState) (es : List LayoutShift)
    (h : metricsRounded st.metrics = true) :
    metricsRounded ((observeCLSCallback st es).metrics) = true := by
  unfold observeCLSCallback
  simp only [metricsRounded, Bool.and_eq_true, optRounded] at h ⊢
  refine ⟨h.1, ?_⟩
  exact qIsInt_clsValue _

theorem metricsRounded_collectNavigationTiming (m : Metrics) (nav : Option NavTiming)
    (h : metricsRounded m = true) :
    metricsRounded (collectNavigationTiming m nav) = true := by
  cases nav with
  | none => exact h
  | some n =>
    simp only [collectNavigationTiming, metricsRounded, Bool.and_eq_true, optRounded,
      qIsInt_jsRoundQ] at h ⊢
    tauto

theorem metricsRounded_collectFinalLCPm (m : Metrics) (hist : List LCPEntry)
    (h : metricsRounded m = true) :
    metricsRounded (collectFinalLCPm m hist) = true := by
  unfold collectFinalLCPm
  cases hist.getLast? with
  | none => exact h
  | some last => exact metricsRounded_applyLCPEntry m last h

theorem metricsRounded_fold {α : Type} (f : Metrics → α → Metrics)
    (hf : ∀ m a, metricsRounded m = true → metricsRounded (f m a) = true)
    (l : List α) (m : Metrics) (h : metricsRounded m = true) :
    metricsRounded (l.foldl f m) = true := by
  induction l generalizing m with
  | nil => exact h
  | cons a rest ih => exact ih (f m a) (hf m a h)

theorem metricsRounded_observeTBTInit (m : Metrics) (h : metricsRounded m = true) :
    metricsRounded (observeTBTInit m) = true := by
  unfold observeTBTInit
  cases hl : m.longTasks with
  | none =>
    simp only [metricsRounded, Bool.and_eq_true, optRounded, hl] at h ⊢
    simp only [Option.getD_some, List.all_nil, qIsInt_zero]
    tauto
  | some ts =>
    simp only [metricsRounded, Bool.and_eq_true, optRounded, hl] at h ⊢
    simp only [Option.getD_some, qIsInt_zero]
    tauto

theorem metricsRounded_updateTBT (m : Metrics) (h : metricsRounded m = true) :
    metricsRounded (updateTBT m) = true := by
  unfold updateTBT
  split
  · simp only [metricsRounded, Bool.and_eq_true, optRounded, qIsInt_zero] at h ⊢
    tauto
  · simp only [metricsRounded, Bool.and_eq_true, optRounded, qIsInt_zero] at h ⊢
    tauto
  · simp only [metricsRounded, Bool.and_eq_true, optRounded, qIsInt_jsRoundQ] at h ⊢
    tauto

theorem metricsRounded_step (st : CollectorState) (ev : ObsEvent)
    (h : metricsRounded st.metrics = true) :
    metricsRounded ((step st ev).metrics) = true := by
  cases ev with
  | paint entries =>
    simp only [step]
    split
    · exact metricsRounded_fold applyPaintEntry metricsRounded_applyPaintEntry entries
        st.metrics h
    · exact h
  | lcpEv entries =>
    simp only [step]
    cases entries.getLast? with
    | none => exact h
    | some last => exact metricsRounded_applyLCPEntry st.metrics last h
  | fidEv entries =>
    simp only [step]
    split
    · exact h
    · exact metricsRounded_fold applyFirstInputEntry metricsRounded_applyFirstInputEntry
        entries st.metrics h
  | clsEv entries =>
    simp only [step]
    exact metricsRounded_observeCLSCallback st entries h
  | longtaskEv entries =>
    simp only [step]
    exact metricsRounded_fold processLongTaskEntry metricsRounded_processLongTaskEntry
      entries st.metrics h
  | collectEv nav hist =>
    simp only [step]
    exact metricsRounded_collectFinalLCPm _ hist
      (metricsRounded_collectNavigationTiming st.metrics nav h)

/-- C10 (confirmed): after initialization and any sequence of observer
callbacks and `collect()` calls, every numeric value present in the metric
store is rounded — fcp, lcp, fid, tbt, ttfb, dns, tcp, request, parse,
domContentLoaded and load, and each stored long task's startTime and
duration, are integers (each written as the nearest-integer rounding of raw
observation values), while the stored cls value has at most three decimal
places (cls·1000 is an integer). -/
theorem C10_all_values_rounded (bp : List PaintEntry) (evs : List ObsEvent) :
    metricsRounded ((evs.foldl step (initCollector bp)).metrics) = true := by
  have hinit : metricsRounded ((initCollector bp).metrics) = true := by
    unfold initCollector
    refine metricsRounded_updateTBT _ (metricsRounded_observeTBTInit _ ?_)
    exact metricsRounded_fold applyPaintEntry metricsRounded_applyPaintEntry bp {} rfl
  have hfold : ∀ (l : List ObsEvent) (st : CollectorState),
      metricsRounded st.metrics = true →
      metricsRounded ((l.foldl step st).metrics) = true := by
    intro l
    induction l with
    | nil => exact fun st h => h
    | cons ev rest ih =>
      intro st h
      rw [List.foldl_cons]
      exact ih _ (metricsRounded_step st ev h)
  exact hfold evs (initCollector bp) hinit
